import Mathlib

set_option maxRecDepth 8000

/-!
Verification of the DRI protocol engine (framing, record decoding,
physiological and waveform decoders) against its specification.
All definitions are shallow embeddings of the corresponding Rust
functions: bytes are `Nat` values (< 256 on real inputs), `i16` reads
are `Int`, `f64` scaling is modelled over `ℚ`, and fallible code
returns `Option` or `Except`.
-/

deriving instance DecidableEq for Except

namespace DRI

/-! ## Framing constants (src/constants/mod.rs) -/

def FRAME_CHAR : Nat := 126

def CTRL_CHAR : Nat := 125

def BIT5 : Nat := 32

/-! ## Checksum (src/protocol/checksum.rs) -/

/-- Sum of all bytes modulo 256, as a fold of wrapping u8 addition. -/
def calculate_checksum (data : List Nat) : Nat :=
  data.foldl (fun acc b => (acc + b) % 256) 0

/-- The last byte must be the checksum of all preceding bytes; empty input
is rejected. -/
def validate_checksum (data : List Nat) : Bool :=
  if data.isEmpty then false
  else data.getLastD 0 == calculate_checksum data.dropLast

/-! ## Frames and the streaming parser (src/protocol/framing.rs) -/

structure DriFrame where
  data : List Nat
  checksum : Nat
  deriving DecidableEq, Repr

def DriFrame.complete_data (f : DriFrame) : List Nat :=
  f.data ++ [f.checksum]

def DriFrame.validate (f : DriFrame) : Bool :=
  validate_checksum f.complete_data

inductive DriError where
  | ChecksumError
  | IncompleteFrame
  | FramingError
  | UnsupportedDriLevel (level : Nat)
  | InvalidSubrecordType (t : Nat)
  deriving DecidableEq, Repr

inductive ParserState where
  | WaitingForStart
  | InFrame
  | NeedUnstuff
  deriving DecidableEq, Repr

structure FrameParser where
  state : ParserState
  buffer : List Nat
  deriving DecidableEq, Repr

def FrameParser.new : FrameParser :=
  ⟨ParserState.WaitingForStart, []⟩

/-- FrameParser::finalize_frame.  The Rust code pops the checksum off the
buffer, so on the checksum branches the residual buffer is `dropLast`. -/
def finalize_frame (p : FrameParser) : FrameParser × Except DriError (Option DriFrame) :=
  if p.buffer.isEmpty then
    (⟨ParserState.WaitingForStart, p.buffer⟩, Except.ok none)
  else if p.buffer.length < 2 then
    (⟨ParserState.WaitingForStart, p.buffer⟩, Except.error DriError.IncompleteFrame)
  else
    let frame : DriFrame := ⟨p.buffer.dropLast, p.buffer.getLastD 0⟩
    if frame.validate then
      (⟨ParserState.WaitingForStart, p.buffer.dropLast⟩, Except.ok (some frame))
    else
      (⟨ParserState.WaitingForStart, p.buffer.dropLast⟩, Except.error DriError.ChecksumError)

/-- FrameParser::process_byte. -/
def process_byte (p : FrameParser) (byte : Nat) : FrameParser × Except DriError (Option DriFrame) :=
  match p.state with
  | ParserState.WaitingForStart =>
      if byte = FRAME_CHAR then (⟨ParserState.InFrame, []⟩, Except.ok none)
      else (p, Except.ok none)
  | ParserState.InFrame =>
      if byte = FRAME_CHAR then finalize_frame p
      else if byte = CTRL_CHAR then (⟨ParserState.NeedUnstuff, p.buffer⟩, Except.ok none)
      else (⟨ParserState.InFrame, p.buffer ++ [byte]⟩, Except.ok none)
  | ParserState.NeedUnstuff =>
      (⟨ParserState.InFrame, p.buffer ++ [byte ||| BIT5]⟩, Except.ok none)

/-- FrameParser::process_bytes: the `?` operator aborts the whole call on the
first error, discarding any frames already pushed onto the local vector and
leaving the remaining bytes of the slice unconsumed. -/
def process_bytes (p : FrameParser) (bytes : List Nat) : FrameParser × Except DriError (List DriFrame) :=
  match bytes with
  | [] => (p, Except.ok [])
  | b :: rest =>
      match process_byte p b with
      | (q, Except.error e) => (q, Except.error e)
      | (q, Except.ok none) => process_bytes q rest
      | (q, Except.ok (some f)) =>
          match process_bytes q rest with
          | (r, Except.ok fs) => (r, Except.ok (f :: fs))
          | (r, Except.error e) => (r, Except.error e)

/-- Feeding the same bytes one at a time through process_byte, recording each
emitted frame or error in order (the byte-by-byte oracle of spec section 8). -/
def run_bytes (p : FrameParser) (bytes : List Nat) : FrameParser × List (Except DriError DriFrame) :=
  match bytes with
  | [] => (p, [])
  | b :: rest =>
      match process_byte p b with
      | (q, Except.error e) =>
          let r2 := run_bytes q rest
          (r2.1, Except.error e :: r2.2)
      | (q, Except.ok none) => run_bytes q rest
      | (q, Except.ok (some f)) =>
          let r2 := run_bytes q rest
          (r2.1, Except.ok f :: r2.2)

/-- Driving the parser with a sequence of chunks, each through process_bytes,
stopping at the first chunk that reports an error (caller-side composition). -/
def feed_chunks (p : FrameParser) : List (List Nat) → FrameParser × Except DriError (List DriFrame)
  | [] => (p, Except.ok [])
  | c :: cs =>
      match process_bytes p c with
      | (q, Except.ok fs) =>
          match feed_chunks q cs with
          | (r, Except.ok gs) => (r, Except.ok (fs ++ gs))
          | (r, Except.error e) => (r, Except.error e)
      | (q, Except.error e) => (q, Except.error e)

def event_ok : Except DriError DriFrame → Bool
  | Except.ok _ => true
  | Except.error _ => false

def ok_frames (evs : List (Except DriError DriFrame)) : List DriFrame :=
  evs.filterMap (fun e => match e with | Except.ok f => some f | Except.error _ => none)

/-- stuff_bytes: escape FRAME_CHAR and CTRL_CHAR (223 is the u8 complement
of BIT5). -/
def stuff_bytes : List Nat → List Nat
  | [] => []
  | b :: rest =>
      if b = FRAME_CHAR ∨ b = CTRL_CHAR then
        CTRL_CHAR :: ((b &&& 223) :: stuff_bytes rest)
      else
        b :: stuff_bytes rest

/-- create_frame: checksum over the raw payload, then stuff payload plus
checksum, then wrap in delimiters. -/
def create_frame (data : List Nat) : List Nat :=
  FRAME_CHAR :: (stuff_bytes (data ++ [calculate_checksum data]) ++ [FRAME_CHAR])

mutual

/-- Checker for the interior of a transmitted frame: no frame delimiter, and
every occurrence of the escape byte 0x7D starts a two-byte escape pair whose
second byte is 0x5E or 0x5D. -/
def interior_wellformed : List Nat → Bool
  | [] => true
  | b :: rest =>
      if b = 126 then false
      else if b = 125 then escape_pair rest
      else interior_wellformed rest

def escape_pair : List Nat → Bool
  | [] => false
  | c :: tail => (c == 94 || c == 93) && interior_wellformed tail

end

/-! ## Little-endian reads (src/decode/subrecords.rs).  Call sites in the
Rust code always stay inside the slice they were handed, so reads are
modelled with a zero default. -/

def read_u16 (data : List Nat) (off : Nat) : Nat :=
  data.getD off 0 + 256 * data.getD (off + 1) 0

def read_u32 (data : List Nat) (off : Nat) : Nat :=
  data.getD off 0 + 256 * data.getD (off + 1) 0 +
    65536 * data.getD (off + 2) 0 + 16777216 * data.getD (off + 3) 0

/-- Reinterpret a 16-bit little-endian word as a signed i16. -/
def to_i16 (w : Nat) : Int :=
  if w % 65536 < 32768 then ((w % 65536 : Nat) : Int)
  else ((w % 65536 : Nat) : Int) - 65536

def read_i16 (data : List Nat) (off : Nat) : Int :=
  to_i16 (read_u16 data off)

/-! ## Special values (src/constants/special_values.rs) -/

inductive SpecialValue where
  | Invalid
  | NotUpdated
  | UnderRange
  | OverRange
  | NotCalibrated
  deriving DecidableEq, Repr

def DATA_INVALID_LIMIT : Int := -32001

def DATA_INVALID : Int := -32767

def DATA_NOT_UPDATED : Int := -32766

def DATA_DISCONT : Int := -32765

def DATA_UNDER_RANGE : Int := -32764

def DATA_OVER_RANGE : Int := -32763

def DATA_NOT_CALIBRATED : Int := -32762

def is_invalid (value : Int) : Bool :=
  value ≤ DATA_INVALID_LIMIT

def check_valid (value : Int) : Option Int :=
  if is_invalid value then none else some value

/-- get_special_value: the match arms of the Rust function, in order. -/
def get_special_value (value : Int) : Option SpecialValue :=
  if value = DATA_INVALID then some SpecialValue.Invalid
  else if value = DATA_NOT_UPDATED then some SpecialValue.NotUpdated
  else if value = DATA_UNDER_RANGE then some SpecialValue.UnderRange
  else if value = DATA_OVER_RANGE then some SpecialValue.OverRange
  else if value = DATA_NOT_CALIBRATED then some SpecialValue.NotCalibrated
  else if value > DATA_INVALID_LIMIT then none
  else some SpecialValue.Invalid

/-! ## Scaling (src/constants/scaling.rs).  The f64 factors are modelled
over the rationals. -/

def SCALE_PERCENT_100 : ℚ := 1 / 100

def SCALE_TEMP_100 : ℚ := 1 / 100

def SCALE_PRESSURE_100 : ℚ := 1 / 100

def SCALE_ST_100 : ℚ := 1 / 100

def SCALE_VOLUME_10 : ℚ := 1 / 10

def SCALE_COMPLIANCE_100 : ℚ := 1 / 100

def SCALE_MAC_100 : ℚ := 1 / 100

def SCALE_AWP_100 : ℚ := 1 / 100

def SCALE_IR_AMP_10 : ℚ := 1 / 10

def scale_valid_i16 (value : Int) (scale : ℚ) : Option ℚ :=
  if is_invalid value then none else some ((value : ℚ) * scale)

/-! ## Protocol enumerations (src/constants/dri_types.rs) -/

inductive DriMainType where
  | Phdb
  | Wave
  | Alarm
  | Network
  | Fo
  deriving DecidableEq, Repr

def DriMainType.from_u16 (value : Nat) : Option DriMainType :=
  match value with
  | 0 => some DriMainType.Phdb
  | 1 => some DriMainType.Wave
  | 4 => some DriMainType.Alarm
  | 5 => some DriMainType.Network
  | 8 => some DriMainType.Fo
  | _ => none

inductive PhdbSubrecordType where
  | XmitReq
  | Displ
  | Trend10s
  | Trend60s
  | Aux
  deriving DecidableEq, Repr

def PhdbSubrecordType.from_u8 (value : Nat) : Option PhdbSubrecordType :=
  match value with
  | 0 => some PhdbSubrecordType.XmitReq
  | 1 => some PhdbSubrecordType.Displ
  | 2 => some PhdbSubrecordType.Trend10s
  | 3 => some PhdbSubrecordType.Trend60s
  | 4 => some PhdbSubrecordType.Aux
  | _ => none

inductive PhdbClass where
  | Basic
  | Ext1
  | Ext2
  | Ext3
  deriving DecidableEq, Repr

def PhdbClass.from_u8 (value : Nat) : Option PhdbClass :=
  match value with
  | 0 => some PhdbClass.Basic
  | 1 => some PhdbClass.Ext1
  | 2 => some PhdbClass.Ext2
  | 3 => some PhdbClass.Ext3
  | _ => none

/-! ## Codebooks (src/constants/physiological.rs) -/

inductive EcgLeadType where
  | NotSelected
  | I
  | II
  | III
  | Avr
  | Avl
  | Avf
  | V
  deriving DecidableEq, Repr

def EcgLeadType.from_u8 (value : Nat) : Option EcgLeadType :=
  match value with
  | 0 => some EcgLeadType.NotSelected
  | 1 => some EcgLeadType.I
  | 2 => some EcgLeadType.II
  | 3 => some EcgLeadType.III
  | 4 => some EcgLeadType.Avr
  | 5 => some EcgLeadType.Avl
  | 6 => some EcgLeadType.Avf
  | 7 => some EcgLeadType.V
  | _ => none

inductive HrSource where
  | Unknown
  | Ecg
  | Bp1
  | Bp2
  | Bp3
  | Bp4
  | Pleth
  | Bp5
  | Bp6
  | EcgMortara
  | Bp7
  | Bp8
  | Pleth2
  deriving DecidableEq, Repr

def HrSource.from_u8 (value : Nat) : Option HrSource :=
  match value with
  | 0 => some HrSource.Unknown
  | 1 => some HrSource.Ecg
  | 2 => some HrSource.Bp1
  | 3 => some HrSource.Bp2
  | 4 => some HrSource.Bp3
  | 5 => some HrSource.Bp4
  | 6 => some HrSource.Pleth
  | 7 => some HrSource.Bp5
  | 8 => some HrSource.Bp6
  | 9 => some HrSource.EcgMortara
  | 10 => some HrSource.Bp7
  | 11 => some HrSource.Bp8
  | 12 => some HrSource.Pleth2
  | _ => none

inductive InvasivePressureLabel where
  | NotDefined
  | Art
  | Cvp
  | Pa
  | Rap
  | Rvp
  | Lap
  | Icp
  | Abp
  | P1
  | P2
  | P3
  | P4
  | P5
  | P6
  | Sp
  | Fem
  | Uac
  | Uvc
  | Icp2
  | P7
  | P8
  | Femv
  deriving DecidableEq, Repr

def InvasivePressureLabel.from_u16 (value : Nat) : Option InvasivePressureLabel :=
  match value with
  | 0 => some InvasivePressureLabel.NotDefined
  | 1 => some InvasivePressureLabel.Art
  | 2 => some InvasivePressureLabel.Cvp
  | 3 => some InvasivePressureLabel.Pa
  | 4 => some InvasivePressureLabel.Rap
  | 5 => some InvasivePressureLabel.Rvp
  | 6 => some InvasivePressureLabel.Lap
  | 7 => some InvasivePressureLabel.Icp
  | 8 => some InvasivePressureLabel.Abp
  | 9 => some InvasivePressureLabel.P1
  | 10 => some InvasivePressureLabel.P2
  | 11 => some InvasivePressureLabel.P3
  | 12 => some InvasivePressureLabel.P4
  | 13 => some InvasivePressureLabel.P5
  | 14 => some InvasivePressureLabel.P6
  | 15 => some InvasivePressureLabel.Sp
  | 16 => some InvasivePressureLabel.Fem
  | 17 => some InvasivePressureLabel.Uac
  | 18 => some InvasivePressureLabel.Uvc
  | 19 => some InvasivePressureLabel.Icp2
  | 20 => some InvasivePressureLabel.P7
  | 21 => some InvasivePressureLabel.P8
  | 22 => some InvasivePressureLabel.Femv
  | _ => none

inductive TemperatureLabel where
  | NotUsed
  | Eso
  | Naso
  | Tymp
  | Rect
  | Blad
  | Axil
  | Skin
  | Airw
  | Room
  | Myo
  | T1
  | T2
  | T3
  | T4
  | Core
  | Surf
  | T5
  | T6
  deriving DecidableEq, Repr

def TemperatureLabel.from_u16 (value : Nat) : Option TemperatureLabel :=
  match value with
  | 0 => some TemperatureLabel.NotUsed
  | 1 => some TemperatureLabel.Eso
  | 2 => some TemperatureLabel.Naso
  | 3 => some TemperatureLabel.Tymp
  | 4 => some TemperatureLabel.Rect
  | 5 => some TemperatureLabel.Blad
  | 6 => some TemperatureLabel.Axil
  | 7 => some TemperatureLabel.Skin
  | 8 => some TemperatureLabel.Airw
  | 9 => some TemperatureLabel.Room
  | 10 => some TemperatureLabel.Myo
  | 11 => some TemperatureLabel.T1
  | 12 => some TemperatureLabel.T2
  | 13 => some TemperatureLabel.T3
  | 14 => some TemperatureLabel.T4
  | 15 => some TemperatureLabel.Core
  | 16 => some TemperatureLabel.Surf
  | 17 => some TemperatureLabel.T5
  | 18 => some TemperatureLabel.T6
  | _ => none

inductive AnesthesiaAgent where
  | Unknown
  | NoAgent
  | Hal
  | Enf
  | Iso
  | Des
  | Sev
  deriving DecidableEq, Repr

/-- AnesthesiaAgent::from_u16; the Rust variant named None is NoAgent here. -/
def AnesthesiaAgent.from_u16 (value : Nat) : Option AnesthesiaAgent :=
  match value with
  | 0 => some AnesthesiaAgent.Unknown
  | 1 => some AnesthesiaAgent.NoAgent
  | 2 => some AnesthesiaAgent.Hal
  | 3 => some AnesthesiaAgent.Enf
  | 4 => some AnesthesiaAgent.Iso
  | 5 => some AnesthesiaAgent.Des
  | 6 => some AnesthesiaAgent.Sev
  | _ => none

/-! ## Waveform codebook (src/constants/waveforms.rs) -/

inductive WaveformType where
  | Cmd
  | Ecg1
  | Ecg2
  | Ecg3
  | Invp1
  | Invp2
  | Invp3
  | Invp4
  | Pleth
  | Co2
  | O2
  | N2o
  | Aa
  | Awp
  | Flow
  | Resp
  | Invp5
  | Invp6
  | Eeg1
  | Eeg2
  | Eeg3
  | Eeg4
  | Vol
  | TonoPress
  | SpiLoopStatus
  | Ent100
  | EegBis
  | Invp7
  | Invp8
  | Pleth2
  deriving DecidableEq, Repr

def WaveformType.from_u8 (value : Nat) : Option WaveformType :=
  match value with
  | 0 => some WaveformType.Cmd
  | 1 => some WaveformType.Ecg1
  | 2 => some WaveformType.Ecg2
  | 3 => some WaveformType.Ecg3
  | 4 => some WaveformType.Invp1
  | 5 => some WaveformType.Invp2
  | 6 => some WaveformType.Invp3
  | 7 => some WaveformType.Invp4
  | 8 => some WaveformType.Pleth
  | 9 => some WaveformType.Co2
  | 10 => some WaveformType.O2
  | 11 => some WaveformType.N2o
  | 12 => some WaveformType.Aa
  | 13 => some WaveformType.Awp
  | 14 => some WaveformType.Flow
  | 15 => some WaveformType.Resp
  | 16 => some WaveformType.Invp5
  | 17 => some WaveformType.Invp6
  | 18 => some WaveformType.Eeg1
  | 19 => some WaveformType.Eeg2
  | 20 => some WaveformType.Eeg3
  | 21 => some WaveformType.Eeg4
  | 23 => some WaveformType.Vol
  | 24 => some WaveformType.TonoPress
  | 29 => some WaveformType.SpiLoopStatus
  | 32 => some WaveformType.Ent100
  | 35 => some WaveformType.EegBis
  | 36 => some WaveformType.Invp7
  | 37 => some WaveformType.Invp8
  | 38 => some WaveformType.Pleth2
  | _ => none

/-- Sample rate from get_waveform_info (only the samples_per_second field of
WaveformInfo is consumed by the decoder). -/
def samples_per_second : WaveformType → Nat
  | WaveformType.Ecg1 => 300
  | WaveformType.Ecg2 => 300
  | WaveformType.Ecg3 => 300
  | WaveformType.Invp1 => 100
  | WaveformType.Invp2 => 100
  | WaveformType.Invp3 => 100
  | WaveformType.Invp4 => 100
  | WaveformType.Invp5 => 100
  | WaveformType.Invp6 => 100
  | WaveformType.Invp7 => 100
  | WaveformType.Invp8 => 100
  | WaveformType.Pleth => 100
  | WaveformType.Pleth2 => 100
  | WaveformType.Co2 => 25
  | WaveformType.O2 => 25
  | WaveformType.N2o => 25
  | WaveformType.Aa => 25
  | WaveformType.Awp => 25
  | WaveformType.Flow => 25
  | WaveformType.Vol => 25
  | WaveformType.Resp => 25
  | WaveformType.Eeg1 => 100
  | WaveformType.Eeg2 => 100
  | WaveformType.Eeg3 => 100
  | WaveformType.Eeg4 => 100
  | WaveformType.TonoPress => 25
  | WaveformType.SpiLoopStatus => 25
  | WaveformType.Ent100 => 100
  | WaveformType.EegBis => 300
  | WaveformType.Cmd => 0

/-! ## Record header (src/protocol/header.rs) -/

structure SubrecordDescriptor where
  offset : Nat
  sr_type : Nat
  deriving DecidableEq, Repr

/-- DriHeader.  dri_level is kept as the raw validated byte (2..=10); the
decoders never inspect it. -/
structure DriHeader where
  r_len : Nat
  r_nbr : Nat
  dri_level : Nat
  plug_id : Nat
  r_time : Nat
  r_maintype : DriMainType
  subrecords : List SubrecordDescriptor
  deriving DecidableEq, Repr

/-- DriHeader::get_subrecord_data: slice from descriptor i's offset to the
next descriptor's offset (or the end of the data region). -/
def get_subrecord_data (hdr : DriHeader) (data : List Nat) (index : Nat) :
    Except DriError (List Nat) :=
  if index < hdr.subrecords.length then
    let start := (hdr.subrecords.getD index ⟨0, 0⟩).offset
    let stop :=
      if index + 1 < hdr.subrecords.length then
        (hdr.subrecords.getD (index + 1) ⟨0, 0⟩).offset
      else data.length
    if start > data.length ∨ stop > data.length ∨ start > stop then
      Except.error DriError.IncompleteFrame
    else
      Except.ok ((data.take stop).drop start)
  else
    Except.error (DriError.InvalidSubrecordType (index % 256))

/-! ## Waveform decoding (src/decode/waveforms.rs) -/

structure WaveformStatus where
  gap : Bool
  pacer_detected : Bool
  lead_off : Bool
  deriving DecidableEq, Repr

def WaveformStatus.from_u16 (status : Nat) : WaveformStatus where
  gap := (status &&& 1) != 0
  pacer_detected := (status &&& 4) != 0
  lead_off := (status &&& 8) != 0

structure WaveformHeader where
  act_len : Nat
  status : Nat
  reserved : Nat
  deriving DecidableEq, Repr

def WaveformHeader.parse (data : List Nat) : Option WaveformHeader :=
  if data.length < 6 then none
  else some ⟨read_u16 data 0, read_u16 data 2, read_u16 data 4⟩

structure WaveformData where
  timestamp : Nat
  waveform_type : WaveformType
  samples : List Int
  sample_rate : Nat
  status : WaveformStatus
  deriving DecidableEq, Repr

/-- The sample loop of decode_waveforms: for indices 0..count, read the i16
at byte offset 6 + 2*idx and stop at the first read that would run past the
end of the subrecord slice. -/
def collect_samples (sub_data : List Nat) (start : Nat) : Nat → List Int
  | 0 => []
  | Nat.succ c =>
      if start + 2 ≤ sub_data.length then
        read_i16 sub_data start :: collect_samples sub_data (start + 2) c
      else []

/-- One iteration of the decode_waveforms loop: the skip paths (unknown
type, command subrecord, bad slice, short header) yield none. -/
def decode_wave_sub (hdr : DriHeader) (data : List Nat) (i : Nat) : Option WaveformData :=
  match WaveformType.from_u8 (hdr.subrecords.getD i ⟨0, 0⟩).sr_type with
  | none => none
  | some wf =>
      if wf = WaveformType.Cmd then none
      else
        match get_subrecord_data hdr data i with
        | Except.error _ => none
        | Except.ok sub_data =>
            match WaveformHeader.parse sub_data with
            | none => none
            | some wfh =>
                some { timestamp := hdr.r_time
                       waveform_type := wf
                       samples := collect_samples sub_data 6 wfh.act_len
                       sample_rate := samples_per_second wf
                       status := WaveformStatus.from_u16 wfh.status }

def decode_wave_aux (hdr : DriHeader) (data : List Nat) : List Nat → List WaveformData
  | [] => []
  | i :: rest =>
      match decode_wave_sub hdr data i with
      | some w => w :: decode_wave_aux hdr data rest
      | none => decode_wave_aux hdr data rest

def decode_waveforms (hdr : DriHeader) (data : List Nat) : List WaveformData :=
  decode_wave_aux hdr data (List.range hdr.subrecords.length)

/-! ## Status-bit structures (src/decode/status_bits.rs) -/

structure EcgStatus where
  exists_bit : Bool := false
  active : Bool := false
  asystole : Bool := false
  noise : Bool := false
  artifact : Bool := false
  learning : Bool := false
  pacer_on : Bool := false
  channel1_off : Bool := false
  channel2_off : Bool := false
  channel3_off : Bool := false
  deriving DecidableEq, Repr

/-- EcgStatus::from_status (the Rust field named exists is exists_bit here). -/
def EcgStatus.from_status (status : Nat) : EcgStatus where
  exists_bit := (status &&& (1 <<< 0)) != 0
  active := (status &&& (1 <<< 1)) != 0
  asystole := (status &&& (1 <<< 2)) != 0
  noise := (status &&& (1 <<< 7)) != 0
  artifact := (status &&& (1 <<< 8)) != 0
  learning := (status &&& (1 <<< 9)) != 0
  pacer_on := (status &&& (1 <<< 10)) != 0
  channel1_off := (status &&& (1 <<< 11)) != 0
  channel2_off := (status &&& (1 <<< 12)) != 0
  channel3_off := (status &&& (1 <<< 13)) != 0

structure NibpStatus where
  exists_bit : Bool := false
  active : Bool := false
  auto_mode : Bool := false
  stat_mode : Bool := false
  measuring : Bool := false
  stasis_on : Bool := false
  calibrating : Bool := false
  data_older_than_60s : Bool := false
  deriving DecidableEq, Repr

/-- NibpStatus::from_label: the NIBP group re-uses the label word; exists
and active are hardwired true by the Rust code. -/
def NibpStatus.from_label (label : Nat) : NibpStatus where
  exists_bit := true
  active := true
  auto_mode := (label &&& (1 <<< 3)) != 0
  stat_mode := (label &&& (1 <<< 4)) != 0
  measuring := (label &&& (1 <<< 5)) != 0
  stasis_on := (label &&& (1 <<< 6)) != 0
  calibrating := (label &&& (1 <<< 7)) != 0
  data_older_than_60s := (label &&& (1 <<< 8)) != 0

structure Co2Status where
  exists_bit : Bool := false
  active : Bool := false
  apnea_co2 : Bool := false
  calibrating_sensor : Bool := false
  zeroing_sensor : Bool := false
  occlusion : Bool := false
  air_leak : Bool := false
  apnea_from_resp : Bool := false
  apnea_deactivated : Bool := false
  wet_condition : Bool := false
  deriving DecidableEq, Repr

def Co2Status.from_status (status : Nat) : Co2Status where
  exists_bit := (status &&& (1 <<< 0)) != 0
  active := (status &&& (1 <<< 1)) != 0
  apnea_co2 := (status &&& (1 <<< 2)) != 0
  calibrating_sensor := (status &&& (1 <<< 3)) != 0
  zeroing_sensor := (status &&& (1 <<< 4)) != 0
  occlusion := (status &&& (1 <<< 5)) != 0
  air_leak := (status &&& (1 <<< 6)) != 0
  apnea_from_resp := (status &&& (1 <<< 7)) != 0
  apnea_deactivated := (status &&& (1 <<< 8)) != 0
  wet_condition := (status &&& (1 <<< 9)) != 0

structure Spo2Status where
  exists_bit : Bool := false
  active : Bool := false
  deriving DecidableEq, Repr

def Spo2Status.from_status (status : Nat) : Spo2Status where
  exists_bit := (status &&& (1 <<< 0)) != 0
  active := (status &&& (1 <<< 1)) != 0

inductive TidalVolumeBase where
  | Atpd
  | Ntpd
  | Btps
  | Stpd
  deriving DecidableEq, Repr

structure FlowVolStatus where
  exists_bit : Bool := false
  active : Bool := false
  disconnection : Bool := false
  calibrating : Bool := false
  zeroing : Bool := false
  obstruction : Bool := false
  leak : Bool := false
  measurement_off : Bool := false
  tv_base : TidalVolumeBase := TidalVolumeBase.Atpd
  deriving DecidableEq, Repr

def FlowVolStatus.from_status (status : Nat) : FlowVolStatus where
  exists_bit := (status &&& (1 <<< 0)) != 0
  active := (status &&& (1 <<< 1)) != 0
  disconnection := (status &&& (1 <<< 2)) != 0
  calibrating := (status &&& (1 <<< 3)) != 0
  zeroing := (status &&& (1 <<< 4)) != 0
  obstruction := (status &&& (1 <<< 5)) != 0
  leak := (status &&& (1 <<< 6)) != 0
  measurement_off := (status &&& (1 <<< 7)) != 0
  tv_base :=
    match (status >>> 8) &&& 3 with
    | 0 => TidalVolumeBase.Atpd
    | 1 => TidalVolumeBase.Ntpd
    | 2 => TidalVolumeBase.Btps
    | _ => TidalVolumeBase.Stpd

structure GasStatus where
  exists_bit : Bool := false
  active : Bool := false
  calibrating : Bool := false
  measurement_off : Bool := false
  deriving DecidableEq, Repr

def GasStatus.from_status (status : Nat) : GasStatus where
  exists_bit := (status &&& (1 <<< 0)) != 0
  active := (status &&& (1 <<< 1)) != 0
  calibrating := (status &&& (1 <<< 2)) != 0
  measurement_off := (status &&& (1 <<< 3)) != 0

structure GenericStatus where
  exists_bit : Bool := false
  active : Bool := false
  deriving DecidableEq, Repr

def GenericStatus.from_status (status : Nat) : GenericStatus where
  exists_bit := (status &&& (1 <<< 0)) != 0
  active := (status &&& (1 <<< 1)) != 0

/-! ## Physiological decoding (src/decode/physiological.rs) -/

/-- Six-byte parameter-group header: u32 status word then u16 label. -/
structure GroupHeader where
  status : Nat
  label : Nat
  deriving DecidableEq, Repr

def parse_group_header (data : List Nat) : Option GroupHeader :=
  if 6 ≤ data.length then some ⟨read_u32 data 0, read_u16 data 4⟩ else none

structure PhysiologicalData where
  timestamp : Nat
  cls : PhdbClass
  subtype : PhdbSubrecordType
  ecg_status : EcgStatus := {}
  ecg_hr : Option ℚ := none
  ecg_st1 : Option ℚ := none
  ecg_st2 : Option ℚ := none
  ecg_st3 : Option ℚ := none
  ecg_rr : Option ℚ := none
  ecg_hr_source : Option HrSource := none
  ecg_lead1 : Option EcgLeadType := none
  ecg_lead2 : Option EcgLeadType := none
  ecg_lead3 : Option EcgLeadType := none
  nibp_status : NibpStatus := {}
  nibp_sys : Option ℚ := none
  nibp_dia : Option ℚ := none
  nibp_mean : Option ℚ := none
  nibp_hr : Option ℚ := none
  invp1_status : GenericStatus := {}
  invp1_sys : Option ℚ := none
  invp1_dia : Option ℚ := none
  invp1_mean : Option ℚ := none
  invp1_hr : Option ℚ := none
  invp1_label : Option InvasivePressureLabel := none
  spo2_status : Spo2Status := {}
  spo2 : Option ℚ := none
  spo2_pr : Option ℚ := none
  spo2_ir_amp : Option ℚ := none
  temp1_status : GenericStatus := {}
  temp1 : Option ℚ := none
  temp1_label : Option TemperatureLabel := none
  temp2_status : GenericStatus := {}
  temp2 : Option ℚ := none
  temp2_label : Option TemperatureLabel := none
  co2_status : Co2Status := {}
  co2_et : Option ℚ := none
  co2_fi : Option ℚ := none
  co2_rr : Option ℚ := none
  o2_status : GasStatus := {}
  o2_et : Option ℚ := none
  o2_fi : Option ℚ := none
  n2o_status : GasStatus := {}
  n2o_et : Option ℚ := none
  n2o_fi : Option ℚ := none
  aa_status : GasStatus := {}
  aa_et : Option ℚ := none
  aa_fi : Option ℚ := none
  aa_mac : Option ℚ := none
  aa_agent : Option AnesthesiaAgent := none
  flow_status : FlowVolStatus := {}
  flow_rr : Option ℚ := none
  flow_ppeak : Option ℚ := none
  flow_peep : Option ℚ := none
  flow_pplat : Option ℚ := none
  flow_tv_insp : Option ℚ := none
  flow_tv_exp : Option ℚ := none
  flow_compliance : Option ℚ := none
  flow_mv_exp : Option ℚ := none
  deriving DecidableEq, Repr

/-- PhysiologicalData::empty. -/
def PhysiologicalData.empty (timestamp : Nat) (cls : PhdbClass)
    (subtype : PhdbSubrecordType) : PhysiologicalData :=
  { timestamp := timestamp, cls := cls, subtype := subtype }

/-- parse_ecg_group (16 bytes). -/
def parse_ecg_group (data : List Nat) :
    Option (EcgStatus × Option ℚ × Option ℚ × Option ℚ × Option ℚ × Option ℚ ×
      Option HrSource × Option EcgLeadType × Option EcgLeadType × Option EcgLeadType) :=
  if data.length < 16 then none
  else
    match parse_group_header (data.take 6) with
    | none => none
    | some header =>
        let hr_raw := read_i16 data 6
        let hr : Option ℚ := if is_invalid hr_raw then none else some (hr_raw : ℚ)
        let st1 := scale_valid_i16 (read_i16 data 8) SCALE_ST_100
        let st2 := scale_valid_i16 (read_i16 data 10) SCALE_ST_100
        let st3 := scale_valid_i16 (read_i16 data 12) SCALE_ST_100
        let rr_raw := read_i16 data 14
        let rr : Option ℚ := if is_invalid rr_raw then none else some (rr_raw : ℚ)
        let hr_source := HrSource.from_u8 ((header.status >>> 3) &&& 15)
        let lead1 := EcgLeadType.from_u8 (header.label &&& 15)
        let lead2 := EcgLeadType.from_u8 ((header.label >>> 4) &&& 15)
        let lead3 := EcgLeadType.from_u8 ((header.label >>> 8) &&& 15)
        some (EcgStatus.from_status header.status, hr, st1, st2, st3, rr,
          hr_source, lead1, lead2, lead3)

/-- parse_invp_group (14 bytes). -/
def parse_invp_group (data : List Nat) :
    Option (GenericStatus × Option ℚ × Option ℚ × Option ℚ × Option ℚ ×
      Option InvasivePressureLabel) :=
  if data.length < 14 then none
  else
    match parse_group_header (data.take 6) with
    | none => none
    | some header =>
        let sys := scale_valid_i16 (read_i16 data 6) SCALE_PRESSURE_100
        let dia := scale_valid_i16 (read_i16 data 8) SCALE_PRESSURE_100
        let mean := scale_valid_i16 (read_i16 data 10) SCALE_PRESSURE_100
        let hr_raw := read_i16 data 12
        let hr : Option ℚ := if is_invalid hr_raw then none else some (hr_raw : ℚ)
        some (GenericStatus.from_status header.status, sys, dia, mean, hr,
          InvasivePressureLabel.from_u16 header.label)

/-- parse_nibp_group (14 bytes). -/
def parse_nibp_group (data : List Nat) :
    Option (NibpStatus × Option ℚ × Option ℚ × Option ℚ × Option ℚ) :=
  if data.length < 14 then none
  else
    match parse_group_header (data.take 6) with
    | none => none
    | some header =>
        let sys := scale_valid_i16 (read_i16 data 6) SCALE_PRESSURE_100
        let dia := scale_valid_i16 (read_i16 data 8) SCALE_PRESSURE_100
        let mean := scale_valid_i16 (read_i16 data 10) SCALE_PRESSURE_100
        let hr_raw := read_i16 data 12
        let hr : Option ℚ := if is_invalid hr_raw then none else some (hr_raw : ℚ)
        some (NibpStatus.from_label header.label, sys, dia, mean, hr)

/-- parse_temp_group (8 bytes). -/
def parse_temp_group (data : List Nat) :
    Option (GenericStatus × Option ℚ × Option TemperatureLabel) :=
  if data.length < 8 then none
  else
    match parse_group_header (data.take 6) with
    | none => none
    | some header =>
        some (GenericStatus.from_status header.status,
          scale_valid_i16 (read_i16 data 6) SCALE_TEMP_100,
          TemperatureLabel.from_u16 header.label)

/-- parse_spo2_group (14 bytes). -/
def parse_spo2_group (data : List Nat) :
    Option (Spo2Status × Option ℚ × Option ℚ × Option ℚ) :=
  if data.length < 14 then none
  else
    match parse_group_header (data.take 6) with
    | none => none
    | some header =>
        let spo2 := scale_valid_i16 (read_i16 data 6) SCALE_PERCENT_100
        let pr_raw := read_i16 data 8
        let pr : Option ℚ := if is_invalid pr_raw then none else some (pr_raw : ℚ)
        let ir_amp := scale_valid_i16 (read_i16 data 10) SCALE_IR_AMP_10
        some (Spo2Status.from_status header.status, spo2, pr, ir_amp)

/-- parse_co2_group (14 bytes). -/
def parse_co2_group (data : List Nat) :
    Option (Co2Status × Option ℚ × Option ℚ × Option ℚ) :=
  if data.length < 14 then none
  else
    match parse_group_header (data.take 6) with
    | none => none
    | some header =>
        let et := scale_valid_i16 (read_i16 data 6) SCALE_PERCENT_100
        let fi := scale_valid_i16 (read_i16 data 8) SCALE_PERCENT_100
        let rr_raw := read_i16 data 10
        let rr : Option ℚ := if is_invalid rr_raw then none else some (rr_raw : ℚ)
        some (Co2Status.from_status header.status, et, fi, rr)

/-- parse_o2_group (10 bytes). -/
def parse_o2_group (data : List Nat) :
    Option (GasStatus × Option ℚ × Option ℚ) :=
  if data.length < 10 then none
  else
    match parse_group_header (data.take 6) with
    | none => none
    | some header =>
        some (GasStatus.from_status header.status,
          scale_valid_i16 (read_i16 data 6) SCALE_PERCENT_100,
          scale_valid_i16 (read_i16 data 8) SCALE_PERCENT_100)

/-- parse_n2o_group (10 bytes). -/
def parse_n2o_group (data : List Nat) :
    Option (GasStatus × Option ℚ × Option ℚ) :=
  if data.length < 10 then none
  else
    match parse_group_header (data.take 6) with
    | none => none
    | some header =>
        some (GasStatus.from_status header.status,
          scale_valid_i16 (read_i16 data 6) SCALE_PERCENT_100,
          scale_valid_i16 (read_i16 data 8) SCALE_PERCENT_100)

/-- parse_aa_group (12 bytes). -/
def parse_aa_group (data : List Nat) :
    Option (GasStatus × Option ℚ × Option ℚ × Option ℚ × Option AnesthesiaAgent) :=
  if data.length < 12 then none
  else
    match parse_group_header (data.take 6) with
    | none => none
    | some header =>
        let et := scale_valid_i16 (read_i16 data 6) SCALE_PERCENT_100
        let fi := scale_valid_i16 (read_i16 data 8) SCALE_PERCENT_100
        let mac := scale_valid_i16 (read_i16 data 10) SCALE_MAC_100
        some (GasStatus.from_status header.status, et, fi, mac,
          AnesthesiaAgent.from_u16 header.label)

/-- parse_flow_vol_group (22 bytes).  Note the Rust code scales mv_exp with
SCALE_PERCENT_100 (same value as the named compliance/MV factor). -/
def parse_flow_vol_group (data : List Nat) :
    Option (FlowVolStatus × Option ℚ × Option ℚ × Option ℚ × Option ℚ × Option ℚ ×
      Option ℚ × Option ℚ × Option ℚ) :=
  if data.length < 22 then none
  else
    match parse_group_header (data.take 6) with
    | none => none
    | some header =>
        let rr_raw := read_i16 data 6
        let rr : Option ℚ := if is_invalid rr_raw then none else some (rr_raw : ℚ)
        let ppeak := scale_valid_i16 (read_i16 data 8) SCALE_AWP_100
        let peep := scale_valid_i16 (read_i16 data 10) SCALE_AWP_100
        let pplat := scale_valid_i16 (read_i16 data 12) SCALE_AWP_100
        let tv_insp := scale_valid_i16 (read_i16 data 14) SCALE_VOLUME_10
        let tv_exp := scale_valid_i16 (read_i16 data 16) SCALE_VOLUME_10
        let compliance := scale_valid_i16 (read_i16 data 18) SCALE_COMPLIANCE_100
        let mv_exp := scale_valid_i16 (read_i16 data 20) SCALE_PERCENT_100
        some (FlowVolStatus.from_status header.status, rr, ppeak, peep, pplat,
          tv_insp, tv_exp, compliance, mv_exp)

/-- decode_basic_class: walk the fixed Basic-class layout, each group guarded
by a length test on the whole class-data slice; a failing group parse aborts
(the Rust ? operator), a failing guard skips the group. -/
def decode_basic_class (data : List Nat) (phys0 : PhysiologicalData) :
    Option PhysiologicalData := do
  let phys1 ←
    if 16 ≤ data.length then
      match parse_ecg_group (data.take 16) with
      | none => none
      | some (st, hr, st1, st2, st3, rr, src, l1, l2, l3) =>
          some { phys0 with
                   ecg_status := st, ecg_hr := hr, ecg_st1 := st1,
                   ecg_st2 := st2, ecg_st3 := st3, ecg_rr := rr,
                   ecg_hr_source := src, ecg_lead1 := l1, ecg_lead2 := l2,
                   ecg_lead3 := l3 }
    else some phys0
  let phys2 ←
    if 30 ≤ data.length then
      match parse_invp_group ((data.drop 16).take 14) with
      | none => none
      | some (st, sys, dia, mean, hr, label) =>
          some { phys1 with
                   invp1_status := st, invp1_sys := sys,
                   invp1_dia := dia, invp1_mean := mean, invp1_hr := hr,
                   invp1_label := label }
    else some phys1
  let phys3 ←
    if 90 ≤ data.length then
      match parse_nibp_group ((data.drop 76).take 14) with
      | none => none
      | some (st, sys, dia, mean, hr) =>
          some { phys2 with
                   nibp_status := st, nibp_sys := sys,
                   nibp_dia := dia, nibp_mean := mean, nibp_hr := hr }
    else some phys2
  let phys4 ←
    if 98 ≤ data.length then
      match parse_temp_group ((data.drop 90).take 8) with
      | none => none
      | some (st, temp, label) =>
          some { phys3 with temp1_status := st, temp1 := temp, temp1_label := label }
    else some phys3
  let phys5 ←
    if 106 ≤ data.length then
      match parse_temp_group ((data.drop 98).take 8) with
      | none => none
      | some (st, temp, label) =>
          some { phys4 with temp2_status := st, temp2 := temp, temp2_label := label }
    else some phys4
  let phys6 ←
    if 136 ≤ data.length then
      match parse_spo2_group ((data.drop 122).take 14) with
      | none => none
      | some (st, spo2, pr, ir_amp) =>
          some { phys5 with
                   spo2_status := st, spo2 := spo2, spo2_pr := pr,
                   spo2_ir_amp := ir_amp }
    else some phys5
  let phys7 ←
    if 150 ≤ data.length then
      match parse_co2_group ((data.drop 136).take 14) with
      | none => none
      | some (st, et, fi, rr) =>
          some { phys6 with
                   co2_status := st, co2_et := et, co2_fi := fi,
                   co2_rr := rr }
    else some phys6
  let phys8 ←
    if 160 ≤ data.length then
      match parse_o2_group ((data.drop 150).take 10) with
      | none => none
      | some (st, et, fi) =>
          some { phys7 with o2_status := st, o2_et := et, o2_fi := fi }
    else some phys7
  let phys9 ←
    if 170 ≤ data.length then
      match parse_n2o_group ((data.drop 160).take 10) with
      | none => none
      | some (st, et, fi) =>
          some { phys8 with n2o_status := st, n2o_et := et, n2o_fi := fi }
    else some phys8
  let phys10 ←
    if 182 ≤ data.length then
      match parse_aa_group ((data.drop 170).take 12) with
      | none => none
      | some (st, et, fi, mac, agent) =>
          some { phys9 with
                   aa_status := st, aa_et := et, aa_fi := fi,
                   aa_mac := mac, aa_agent := agent }
    else some phys9
  let phys11 ←
    if 204 ≤ data.length then
      match parse_flow_vol_group ((data.drop 182).take 22) with
      | none => none
      | some (st, rr, ppeak, peep, pplat, tv_insp, tv_exp, compliance, mv_exp) =>
          some { phys10 with
                   flow_status := st, flow_rr := rr,
                   flow_ppeak := ppeak, flow_peep := peep, flow_pplat := pplat,
                   flow_tv_insp := tv_insp, flow_tv_exp := tv_exp,
                   flow_compliance := compliance, flow_mv_exp := mv_exp }
    else some phys10
  some phys11

/-! ## Record decoding (src/decode/mod.rs) -/

inductive DecodeError where
  | NoSubrecords
  | InvalidSubrecordType (t : Nat)
  | Dri (e : DriError)
  | SubrecordTooShort (len : Nat)
  | InvalidClass (bits : Nat)
  | GroupTooShort
  deriving DecidableEq, Repr

/-- decode_physiological.  Timestamps are kept as raw u32 seconds: the
chrono conversion in the Rust code cannot fail on a u32 input. -/
def decode_physiological (sub_data : List Nat) (subtype : PhdbSubrecordType)
    (cls : PhdbClass) : Except DecodeError PhysiologicalData :=
  if sub_data.length < 1088 then
    Except.error (DecodeError.SubrecordTooShort sub_data.length)
  else
    let timestamp := read_u32 sub_data 0
    let phys := PhysiologicalData.empty timestamp cls subtype
    match cls with
    | PhdbClass.Basic =>
        match decode_basic_class (sub_data.drop 4) phys with
        | some p => Except.ok p
        | none => Except.error DecodeError.GroupTooShort
    | PhdbClass.Ext1 => Except.ok phys
    | PhdbClass.Ext2 => Except.ok phys
    | PhdbClass.Ext3 => Except.ok phys

inductive DriRecord where
  | Physiological (p : PhysiologicalData)
  | Waveform (waveforms : List WaveformData)
  deriving DecidableEq, Repr

/-- Decoder::decode_frame. -/
def decode_frame (hdr : DriHeader) (data : List Nat) :
    Except DecodeError (Option DriRecord) :=
  match hdr.r_maintype with
  | DriMainType.Phdb =>
      match hdr.subrecords with
      | [] => Except.error DecodeError.NoSubrecords
      | d0 :: _ =>
          match PhdbSubrecordType.from_u8 d0.sr_type with
          | none => Except.error (DecodeError.InvalidSubrecordType d0.sr_type)
          | some subtype =>
              match get_subrecord_data hdr data 0 with
              | Except.error e => Except.error (DecodeError.Dri e)
              | Except.ok sub_data =>
                  if sub_data.length < 1088 then
                    Except.error (DecodeError.SubrecordTooShort sub_data.length)
                  else
                    let cl_drilvl_subt := read_u16 sub_data 1086
                    let class_bits := (cl_drilvl_subt >>> 8) &&& 15
                    match PhdbClass.from_u8 class_bits with
                    | none => Except.error (DecodeError.InvalidClass class_bits)
                    | some cls =>
                        match decode_physiological sub_data subtype cls with
                        | Except.ok phys => Except.ok (some (DriRecord.Physiological phys))
                        | Except.error e => Except.error e
  | DriMainType.Wave =>
      let waveforms := decode_waveforms hdr data
      if waveforms = [] then Except.ok none
      else Except.ok (some (DriRecord.Waveform waveforms))
  | DriMainType.Alarm => Except.ok none
  | DriMainType.Network => Except.ok none
  | DriMainType.Fo => Except.ok none

/-- Projection used to state claims about the decoded class. -/
def decoded_class : Except DecodeError (Option DriRecord) → Option PhdbClass
  | Except.ok (some (DriRecord.Physiological p)) => some p.cls
  | _ => none

/-! ## Concrete fixtures used by counterexamples and witnesses -/

/-- Basic-class data slice of 90 zero bytes. -/
def dataC4a : List Nat := List.replicate 90 0

/-- Same as dataC4a except byte 86 is 200; bytes 72..86 are identical. -/
def dataC4b : List Nat := List.replicate 86 0 ++ (200 :: List.replicate 3 0)

/-- A 1088-byte physiological subrecord whose classifier word (offset 1086)
is 0x0100: low nibble of the high byte is 1, high nibble is 0. -/
def dataC5 : List Nat := List.replicate 1086 0 ++ [0, 1]

def hdrC5 : DriHeader := ⟨1128, 0, 8, 0, 0, DriMainType.Phdb, [⟨0, 1⟩]⟩

/-- Waveform header for a record with a single ECG1 subrecord. -/
def hdrC3 : DriHeader := ⟨46, 0, 8, 0, 0, DriMainType.Wave, [⟨0, 1⟩]⟩

/-- Waveform data area declaring one sample but carrying none (status 0). -/
def dataC3 : List Nat := [1, 0, 0, 0, 0, 0]

/-- Waveform data area declaring two samples, carrying one, status bit 0 set. -/
def dataC3w : List Nat := [2, 0, 1, 0, 0, 0, 5, 0]

/-- Waveform record holding only a command subrecord. -/
def hdrC9 : DriHeader := ⟨44, 0, 8, 0, 0, DriMainType.Wave, [⟨0, 0⟩]⟩

/-! ## Checksum lemmas -/

theorem foldl_mod256 (l : List Nat) : ∀ a : Nat,
    l.foldl (fun acc b => (acc + b) % 256) (a % 256) = (a + l.sum) % 256 := by
  induction l with
  | nil => intro a; simp
  | cons b rest ih =>
      intro a
      have h1 : (a % 256 + b) % 256 = (a + b) % 256 := Nat.mod_add_mod a 256 b
      calc ((b :: rest).foldl (fun acc b => (acc + b) % 256) (a % 256))
          = rest.foldl (fun acc b => (acc + b) % 256) ((a % 256 + b) % 256) := rfl
        _ = rest.foldl (fun acc b => (acc + b) % 256) ((a + b) % 256) := by rw [h1]
        _ = ((a + b) + rest.sum) % 256 := ih (a + b)
        _ = (a + (b :: rest).sum) % 256 := by simp [List.sum_cons]; ring_nf

theorem calculate_checksum_eq_sum (l : List Nat) :
    calculate_checksum l = l.sum % 256 := by
  have h := foldl_mod256 l 0
  simpa [calculate_checksum] using h

/-! ## Byte stuffing and parsing lemmas -/

theorem pb_start_frame (buf : List Nat) :
    process_byte ⟨ParserState.WaitingForStart, buf⟩ 126 =
      (⟨ParserState.InFrame, []⟩, Except.ok none) := by
  simp [process_byte, FRAME_CHAR]

theorem pb_inframe_ctrl (buf : List Nat) :
    process_byte ⟨ParserState.InFrame, buf⟩ 125 =
      (⟨ParserState.NeedUnstuff, buf⟩, Except.ok none) := by
  simp [process_byte, FRAME_CHAR, CTRL_CHAR]

theorem pb_inframe_data (buf : List Nat) (b : Nat) (h1 : b ≠ 126) (h2 : b ≠ 125) :
    process_byte ⟨ParserState.InFrame, buf⟩ b =
      (⟨ParserState.InFrame, buf ++ [b]⟩, Except.ok none) := by
  simp [process_byte, FRAME_CHAR, CTRL_CHAR, h1, h2]

theorem pb_unstuff (buf : List Nat) (b : Nat) :
    process_byte ⟨ParserState.NeedUnstuff, buf⟩ b =
      (⟨ParserState.InFrame, buf ++ [b ||| 32]⟩, Except.ok none) := by
  simp [process_byte, BIT5]

theorem pb_inframe_close (buf : List Nat) :
    process_byte ⟨ParserState.InFrame, buf⟩ 126 = finalize_frame ⟨ParserState.InFrame, buf⟩ := by
  simp [process_byte, FRAME_CHAR]

theorem process_bytes_cons_none {p q : FrameParser} {b : Nat} (rest : List Nat)
    (h : process_byte p b = (q, Except.ok none)) :
    process_bytes p (b :: rest) = process_bytes q rest := by
  simp [process_bytes, h]

theorem process_bytes_cons_err {p q : FrameParser} {b : Nat} {e : DriError} (rest : List Nat)
    (h : process_byte p b = (q, Except.error e)) :
    process_bytes p (b :: rest) = (q, Except.error e) := by
  simp [process_bytes, h]

theorem process_bytes_single_frame {p q : FrameParser} {b : Nat} {f : DriFrame}
    (h : process_byte p b = (q, Except.ok (some f))) :
    process_bytes p [b] = (q, Except.ok [f]) := by
  simp [process_bytes, h]

theorem process_stuffed (xs : List Nat) : ∀ buf rest : List Nat,
    process_bytes ⟨ParserState.InFrame, buf⟩ (stuff_bytes xs ++ rest) =
      process_bytes ⟨ParserState.InFrame, buf ++ xs⟩ rest := by
  induction xs with
  | nil => intro buf rest; simp [stuff_bytes]
  | cons b xs ih =>
      intro buf rest
      by_cases hb : b = FRAME_CHAR ∨ b = CTRL_CHAR
      · have hstuff : stuff_bytes (b :: xs) = 125 :: (b &&& 223) :: stuff_bytes xs := by
          simp only [stuff_bytes]
          rw [if_pos hb]
          rfl
        have hesc : (b &&& 223) ||| 32 = b := by
          rcases hb with h | h <;> subst h <;> decide
        rw [hstuff, List.cons_append, List.cons_append,
          process_bytes_cons_none _ (pb_inframe_ctrl buf),
          process_bytes_cons_none _ (pb_unstuff buf (b &&& 223)), hesc,
          ih (buf ++ [b]) rest]
        simp
      · push_neg at hb
        have h1 : b ≠ 126 := by simpa [FRAME_CHAR] using hb.1
        have h2 : b ≠ 125 := by simpa [CTRL_CHAR] using hb.2
        have hstuff : stuff_bytes (b :: xs) = b :: stuff_bytes xs := by
          simp [stuff_bytes, hb.1, hb.2]
        rw [hstuff, List.cons_append,
          process_bytes_cons_none _ (pb_inframe_data buf b h1 h2),
          ih (buf ++ [b]) rest]
        simp

theorem finalize_good (P : List Nat) (h : P ≠ []) :
    finalize_frame ⟨ParserState.InFrame, P ++ [calculate_checksum P]⟩ =
      (⟨ParserState.WaitingForStart, P⟩, Except.ok (some ⟨P, calculate_checksum P⟩)) := by
  have hlen : P.length ≠ 0 := by simpa using h
  have hne : (P ++ [calculate_checksum P]).isEmpty = false := by simp
  have hlen2 : ¬((P ++ [calculate_checksum P]).length < 2) := by simp; omega
  have hval : DriFrame.validate ⟨P, calculate_checksum P⟩ = true := by
    simp [DriFrame.validate, DriFrame.complete_data, validate_checksum]
  unfold finalize_frame
  simp only [hne, Bool.false_eq_true, if_false, hlen2, List.dropLast_concat,
    List.getLastD_concat, hval, if_true, ite_false, ite_true]

/-- Claim C1: feeding the exact byte sequence produced by create_frame on a
non-empty payload into a fresh FrameParser emits exactly one frame whose data
is the payload and whose checksum is the payload byte sum modulo 256,
byte-stuffing included. -/
theorem C1_roundtrip (P : List Nat) (h : P ≠ []) :
    process_bytes FrameParser.new (create_frame P) =
      (⟨ParserState.WaitingForStart, P⟩, Except.ok [⟨P, P.sum % 256⟩]) := by
  have hcks : calculate_checksum P = P.sum % 256 := calculate_checksum_eq_sum P
  show process_bytes ⟨ParserState.WaitingForStart, []⟩
      (126 :: (stuff_bytes (P ++ [calculate_checksum P]) ++ [126])) = _
  rw [process_bytes_cons_none _ (pb_start_frame []),
    process_stuffed (P ++ [calculate_checksum P]) [] [126], List.nil_append]
  have hfin : process_byte ⟨ParserState.InFrame, P ++ [calculate_checksum P]⟩ 126 =
      (⟨ParserState.WaitingForStart, P⟩, Except.ok (some ⟨P, calculate_checksum P⟩)) := by
    rw [pb_inframe_close, finalize_good P h]
  rw [process_bytes_single_frame hfin, hcks]

/-- Claim C7: the byte sequence 7E 01 02 03 FF 7E produces exactly one
ChecksumError and no frame, leaves the parser in WaitingForStart, and a
subsequent valid frame is then parsed normally. -/
theorem C7_checksum_mismatch :
    run_bytes FrameParser.new [126, 1, 2, 3, 255, 126] =
      (⟨ParserState.WaitingForStart, [1, 2, 3]⟩, [Except.error DriError.ChecksumError]) ∧
    process_bytes FrameParser.new [126, 1, 2, 3, 255, 126] =
      (⟨ParserState.WaitingForStart, [1, 2, 3]⟩, Except.error DriError.ChecksumError) ∧
    process_bytes ⟨ParserState.WaitingForStart, [1, 2, 3]⟩ [126, 1, 1, 126] =
      (⟨ParserState.WaitingForStart, [1]⟩, Except.ok [⟨[1], 1⟩]) := by
  decide

/-- Claim C8 counterexample: two consecutive delimiters close a frame with
zero buffered bytes, and the parser ignores it silently instead of reporting
IncompleteFrame as the claim states. -/
theorem C8_counterexample :
    process_byte ⟨ParserState.InFrame, []⟩ 126 =
      (⟨ParserState.WaitingForStart, []⟩, Except.ok none) ∧
    process_bytes FrameParser.new [126, 126] =
      (⟨ParserState.WaitingForStart, []⟩, Except.ok []) ∧
    run_bytes FrameParser.new [126, 126] = (⟨ParserState.WaitingForStart, []⟩, []) := by
  decide

/-- Claim C8 amended: a closing delimiter with exactly one buffered byte
reports IncompleteFrame and resets to WaitingForStart, leaving the remaining
bytes of the chunk unconsumed; a closing delimiter with an empty buffer is
ignored silently (no error), also resetting to WaitingForStart. -/
theorem C8_short_frame (buf rest : List Nat) (h : buf.length = 1) :
    process_bytes ⟨ParserState.InFrame, buf⟩ (126 :: rest) =
      (⟨ParserState.WaitingForStart, buf⟩, Except.error DriError.IncompleteFrame) ∧
    process_byte ⟨ParserState.InFrame, []⟩ 126 =
      (⟨ParserState.WaitingForStart, []⟩, Except.ok none) := by
  constructor
  · have hfin : finalize_frame ⟨ParserState.InFrame, buf⟩ =
        (⟨ParserState.WaitingForStart, buf⟩, Except.error DriError.IncompleteFrame) := by
      unfold finalize_frame
      have hne : buf.isEmpty = false := by
        cases buf with
        | nil => simp at h
        | cons a l => simp
      rw [hne]
      simp [h]
    rw [process_bytes_cons_err rest (by rw [pb_inframe_close, hfin])]
  · decide

theorem C8_short_frame_witness :
    ([5] : List Nat).length = 1 ∧
    (process_bytes ⟨ParserState.InFrame, [5]⟩ (126 :: [1, 2]) =
      (⟨ParserState.WaitingForStart, [5]⟩, Except.error DriError.IncompleteFrame) ∧
    process_byte ⟨ParserState.InFrame, []⟩ 126 =
      (⟨ParserState.WaitingForStart, []⟩, Except.ok none)) :=
  ⟨by decide, C8_short_frame [5] [1, 2] (by decide)⟩

/-! ## C10: delimiter uniqueness of transmitted frames -/

theorem stuff_count_frame (xs : List Nat) : (stuff_bytes xs).count 126 = 0 := by
  induction xs with
  | nil => simp [stuff_bytes]
  | cons b xs ih =>
      by_cases hb : b = FRAME_CHAR ∨ b = CTRL_CHAR
      · have hstuff : stuff_bytes (b :: xs) = 125 :: (b &&& 223) :: stuff_bytes xs := by
          simp only [stuff_bytes]
          rw [if_pos hb]
          rfl
        have h2 : ¬((b &&& 223) = 126) := by
          rcases hb with h | h <;> subst h <;> decide
        rw [hstuff]
        simp [List.count_cons, ih, h2]
      · push_neg at hb
        have h1 : ¬(b = 126) := by simpa [FRAME_CHAR] using hb.1
        have hstuff : stuff_bytes (b :: xs) = b :: stuff_bytes xs := by
          simp [stuff_bytes, hb.1, hb.2]
        rw [hstuff]
        simp [List.count_cons, ih, h1]

theorem stuff_wellformed (xs : List Nat) :
    interior_wellformed (stuff_bytes xs) = true := by
  induction xs with
  | nil => simp [stuff_bytes, interior_wellformed]
  | cons b xs ih =>
      by_cases hb : b = FRAME_CHAR ∨ b = CTRL_CHAR
      · have hstuff : stuff_bytes (b :: xs) = 125 :: (b &&& 223) :: stuff_bytes xs := by
          simp only [stuff_bytes]
          rw [if_pos hb]
          rfl
        have h2 : ((b &&& 223) == 94 || (b &&& 223) == 93) = true := by
          rcases hb with h | h <;> subst h <;> decide
        rw [hstuff]
        simp [interior_wellformed, escape_pair, h2, ih]
      · push_neg at hb
        have h1 : ¬(b = 126) := by simpa [FRAME_CHAR] using hb.1
        have h2 : ¬(b = 125) := by simpa [CTRL_CHAR] using hb.2
        have hstuff : stuff_bytes (b :: xs) = b :: stuff_bytes xs := by
          simp [stuff_bytes, hb.1, hb.2]
        rw [hstuff]
        simp [interior_wellformed, h1, h2, ih]

/-- Claim C10: every transmitted frame is delimiter, interior, delimiter: the
delimiter byte 0x7E occurs exactly twice, as first and last byte; the interior
contains no 0x7E, and every interior 0x7D begins an inserted two-byte escape
pair whose second byte is 0x5E or 0x5D. -/
theorem C10_delimiters (P : List Nat) :
    ∃ zs, create_frame P = 126 :: (zs ++ [126]) ∧
      zs.count 126 = 0 ∧
      interior_wellformed zs = true ∧
      (create_frame P).count 126 = 2 := by
  refine ⟨stuff_bytes (P ++ [calculate_checksum P]), rfl, stuff_count_frame _,
    stuff_wellformed _, ?_⟩
  show (126 :: (stuff_bytes (P ++ [calculate_checksum P]) ++ [126])).count 126 = 2
  simp [List.count_cons, List.count_append, stuff_count_frame]

/-! ## C2: chunking behaviour of process_bytes -/

theorem run_bytes_cons_none {p q : FrameParser} {b : Nat} (rest : List Nat)
    (h : process_byte p b = (q, Except.ok none)) :
    run_bytes p (b :: rest) = run_bytes q rest := by
  simp [run_bytes, h]

theorem run_bytes_cons_frame {p q : FrameParser} {b : Nat} {f : DriFrame} (rest : List Nat)
    (h : process_byte p b = (q, Except.ok (some f))) :
    run_bytes p (b :: rest) =
      ((run_bytes q rest).1, Except.ok f :: (run_bytes q rest).2) := by
  simp [run_bytes, h]

theorem run_bytes_cons_err {p q : FrameParser} {b : Nat} {e : DriError} (rest : List Nat)
    (h : process_byte p b = (q, Except.error e)) :
    run_bytes p (b :: rest) =
      ((run_bytes q rest).1, Except.error e :: (run_bytes q rest).2) := by
  simp [run_bytes, h]

theorem run_bytes_append (a : List Nat) : ∀ (p : FrameParser) (b : List Nat),
    run_bytes p (a ++ b) =
      ((run_bytes (run_bytes p a).1 b).1,
        (run_bytes p a).2 ++ (run_bytes (run_bytes p a).1 b).2) := by
  induction a with
  | nil => intro p b; simp [run_bytes]
  | cons x xs ih =>
      intro p b
      rcases hpb : process_byte p x with ⟨q, r⟩
      match r with
      | Except.error e =>
          rw [List.cons_append, run_bytes_cons_err (xs ++ b) hpb, ih q b,
            run_bytes_cons_err xs hpb]
          simp
      | Except.ok none =>
          rw [List.cons_append, run_bytes_cons_none (xs ++ b) hpb, ih q b,
            run_bytes_cons_none xs hpb]
      | Except.ok (some f) =>
          rw [List.cons_append, run_bytes_cons_frame (xs ++ b) hpb, ih q b,
            run_bytes_cons_frame xs hpb]
          simp

/-- On an error-free byte stream, process_bytes agrees with the byte-by-byte
oracle: same final state, and exactly the frames the oracle emitted. -/
theorem process_bytes_of_no_error (bytes : List Nat) : ∀ p : FrameParser,
    (∀ ev ∈ (run_bytes p bytes).2, event_ok ev = true) →
    process_bytes p bytes =
      ((run_bytes p bytes).1, Except.ok (ok_frames (run_bytes p bytes).2)) := by
  induction bytes with
  | nil => intro p _; simp [run_bytes, process_bytes, ok_frames]
  | cons b rest ih =>
      intro p h
      rcases hpb : process_byte p b with ⟨q, r⟩
      match r with
      | Except.error e =>
          exfalso
          have hin : event_ok (Except.error e) = true := by
            apply h
            rw [run_bytes_cons_err rest hpb]
            simp
          simp [event_ok] at hin
      | Except.ok none =>
          have h2 : ∀ ev ∈ (run_bytes q rest).2, event_ok ev = true := by
            intro ev hev
            apply h
            rw [run_bytes_cons_none rest hpb]
            exact hev
          rw [process_bytes_cons_none rest hpb, run_bytes_cons_none rest hpb]
          exact ih q h2
      | Except.ok (some f) =>
          have h2 : ∀ ev ∈ (run_bytes q rest).2, event_ok ev = true := by
            intro ev hev
            apply h
            rw [run_bytes_cons_frame rest hpb]
            simp [hev]
          have hrec := ih q h2
          rw [run_bytes_cons_frame rest hpb]
          have hstep : process_bytes p (b :: rest) =
              ((run_bytes q rest).1, Except.ok (f :: ok_frames (run_bytes q rest).2)) := by
            simp [process_bytes, hpb, hrec]
          rw [hstep]
          simp [ok_frames]

/-- Claim C2 counterexample: a valid frame followed in the same chunk by a
corrupted frame.  Byte-by-byte the parser emits the good frame and then the
ChecksumError, but process_bytes on the whole chunk returns only the error:
the earlier completed frame of the chunk is lost. -/
theorem C2_counterexample :
    process_bytes FrameParser.new [126, 1, 1, 126, 126, 1, 2, 3, 255, 126] =
      (⟨ParserState.WaitingForStart, [1, 2, 3]⟩, Except.error DriError.ChecksumError) ∧
    run_bytes FrameParser.new [126, 1, 1, 126, 126, 1, 2, 3, 255, 126] =
      (⟨ParserState.WaitingForStart, [1, 2, 3]⟩,
        [Except.ok ⟨[1], 1⟩, Except.error DriError.ChecksumError]) := by
  decide

/-- Claim C2 amended: as long as no byte of the stream causes an error,
driving the parser chunk-by-chunk (any partition, via process_bytes) yields
exactly the byte-by-byte frame sequence and the same final state.  When a
byte does cause an error, process_bytes returns only the error and the frames
completed earlier in that chunk are discarded (see the counterexample). -/
theorem C2_chunked (chunks : List (List Nat)) : ∀ p : FrameParser,
    (∀ ev ∈ (run_bytes p chunks.flatten).2, event_ok ev = true) →
    feed_chunks p chunks =
      ((run_bytes p chunks.flatten).1,
        Except.ok (ok_frames (run_bytes p chunks.flatten).2)) := by
  induction chunks with
  | nil => intro p _; simp [feed_chunks, run_bytes, ok_frames]
  | cons c cs ih =>
      intro p h
      have hjoin : (c :: cs).flatten = c ++ cs.flatten := by simp
      rw [hjoin] at h ⊢
      have happ := run_bytes_append c p cs.flatten
      have hc : ∀ ev ∈ (run_bytes p c).2, event_ok ev = true := by
        intro ev hev
        apply h
        rw [happ]
        simp [hev]
      have hrest : ∀ ev ∈ (run_bytes (run_bytes p c).1 cs.flatten).2, event_ok ev = true := by
        intro ev hev
        apply h
        rw [happ]
        simp [hev]
      have h1 := process_bytes_of_no_error c p hc
      have h2 := ih (run_bytes p c).1 hrest
      have hfeed : feed_chunks p (c :: cs) =
          ((run_bytes (run_bytes p c).1 cs.flatten).1,
            Except.ok (ok_frames (run_bytes p c).2 ++
              ok_frames (run_bytes (run_bytes p c).1 cs.flatten).2)) := by
        simp [feed_chunks, h1, h2]
      rw [hfeed, happ]
      simp [ok_frames]

theorem C2_chunked_witness :
    (∀ ev ∈ (run_bytes FrameParser.new ([[126, 1], [1, 126]] : List (List Nat)).flatten).2,
      event_ok ev = true) ∧
    feed_chunks FrameParser.new [[126, 1], [1, 126]] =
      ((run_bytes FrameParser.new ([[126, 1], [1, 126]] : List (List Nat)).flatten).1,
        Except.ok (ok_frames
          (run_bytes FrameParser.new ([[126, 1], [1, 126]] : List (List Nat)).flatten).2)) :=
  ⟨by decide, C2_chunked [[126, 1], [1, 126]] FrameParser.new (by decide)⟩

/-! ## C3: waveform sample counts, truncation and the gap flag -/

theorem collect_samples_length_le (d : List Nat) : ∀ (c s : Nat),
    (collect_samples d s c).length ≤ c := by
  intro c
  induction c with
  | zero => intro s; simp [collect_samples]
  | succ c ih =>
      intro s
      by_cases hs : s + 2 ≤ d.length
      · simp only [collect_samples, if_pos hs, List.length_cons]
        exact Nat.succ_le_succ (ih (s + 2))
      · simp [collect_samples, if_neg hs]

theorem collect_samples_length_full (d : List Nat) : ∀ (c s : Nat),
    s + 2 * c ≤ d.length → (collect_samples d s c).length = c := by
  intro c
  induction c with
  | zero => intro s _; simp [collect_samples]
  | succ c ih =>
      intro s h
      have hs : s + 2 ≤ d.length := by omega
      simp only [collect_samples, if_pos hs, List.length_cons]
      rw [ih (s + 2) (by omega)]

theorem collect_samples_length_short (d : List Nat) : ∀ (c s : Nat),
    (collect_samples d s c).length < c → d.length < s + 2 * c := by
  intro c
  induction c with
  | zero => intro s h; simp [collect_samples] at h
  | succ c ih =>
      intro s h
      by_cases hs : s + 2 ≤ d.length
      · simp only [collect_samples, if_pos hs, List.length_cons] at h
        have := ih (s + 2) (by omega)
        omega
      · omega

theorem collect_samples_length_lt (d : List Nat) : ∀ (c s : Nat),
    0 < c → d.length < s + 2 * c → (collect_samples d s c).length < c := by
  intro c
  induction c with
  | zero => intro s hc _; omega
  | succ c ih =>
      intro s _ hlen
      by_cases hs : s + 2 ≤ d.length
      · simp only [collect_samples, if_pos hs, List.length_cons]
        by_cases hc0 : c = 0
        · subst hc0
          exact absurd hs (by omega)
        · have := ih (s + 2) (by omega) (by omega)
          omega
      · simp only [collect_samples, if_neg hs, List.length_nil]
        omega

theorem collect_samples_lt_iff (d : List Nat) (c s : Nat) :
    (collect_samples d s c).length < c ↔ (0 < c ∧ d.length < s + 2 * c) := by
  constructor
  · intro h
    exact ⟨by omega, collect_samples_length_short d c s h⟩
  · rintro ⟨hc, hlen⟩
    exact collect_samples_length_lt d c s hc hlen

theorem decode_wave_aux_mem (hdr : DriHeader) (data : List Nat) :
    ∀ (idxs : List Nat) (w : WaveformData), w ∈ decode_wave_aux hdr data idxs →
      ∃ i, decode_wave_sub hdr data i = some w := by
  intro idxs
  induction idxs with
  | nil => intro w hw; simp [decode_wave_aux] at hw
  | cons i rest ih =>
      intro w hw
      rcases hsub : decode_wave_sub hdr data i with _ | w2
      · rw [decode_wave_aux, hsub] at hw
        exact ih w hw
      · rw [decode_wave_aux, hsub] at hw
        rcases List.mem_cons.mp hw with h | h
        · exact ⟨i, by rw [hsub, h]⟩
        · exact ih w h

theorem decode_wave_sub_spec (hdr : DriHeader) (data : List Nat) (i : Nat)
    (w : WaveformData) (h : decode_wave_sub hdr data i = some w) :
    ∃ sub_data wfh, get_subrecord_data hdr data i = Except.ok sub_data ∧
      WaveformHeader.parse sub_data = some wfh ∧
      w.samples = collect_samples sub_data 6 wfh.act_len ∧
      w.status = WaveformStatus.from_u16 wfh.status := by
  unfold decode_wave_sub at h
  split at h
  · exact absurd h (by simp)
  · split at h
    · exact absurd h (by simp)
    · split at h
      · exact absurd h (by simp)
      next sub_data hgd =>
        split at h
        · exact absurd h (by simp)
        next wfh hph =>
          refine ⟨sub_data, wfh, hgd, hph, ?_, ?_⟩
          · rw [← Option.some_inj.mp h]
          · rw [← Option.some_inj.mp h]

/-- Claim C3 counterexample: a waveform subrecord declaring one sample over a
six-byte slice (so zero samples can be read) with a zero status word decodes
with samples.length = 0 < 1 declared, yet gap = false: truncation does not
set the gap flag. -/
theorem C3_counterexample :
    decode_waveforms hdrC3 dataC3 =
      [{ timestamp := 0, waveform_type := WaveformType.Ecg1, samples := [],
         sample_rate := 300, status := ⟨false, false, false⟩ }] ∧
    WaveformHeader.parse dataC3 = some ⟨1, 0, 0⟩ := by
  decide

/-- Claim C3 amended: every waveform the decoder emits comes from a subrecord
slice of the record (get_subrecord_data at some descriptor index) whose
6-byte header parses; its samples are exactly the sample loop over that
slice, so samples.length is at most the declared count from that header, and
is strictly below it exactly when the declared count is positive and the
slice is shorter than 6 + 2*count bytes; the gap flag equals bit 0 of that
header's status word, independent of truncation. -/
theorem C3_waveform_lengths (hdr : DriHeader) (data : List Nat) (w : WaveformData)
    (hw : w ∈ decode_waveforms hdr data) :
    ∃ i sub_data wfh,
      get_subrecord_data hdr data i = Except.ok sub_data ∧
      WaveformHeader.parse sub_data = some wfh ∧
      w.samples = collect_samples sub_data 6 wfh.act_len ∧
      w.status = WaveformStatus.from_u16 wfh.status ∧
      w.samples.length ≤ wfh.act_len ∧
      (w.samples.length < wfh.act_len ↔
        (0 < wfh.act_len ∧ sub_data.length < 6 + 2 * wfh.act_len)) ∧
      w.status.gap = ((wfh.status &&& 1) != 0) := by
  obtain ⟨i, hi⟩ := decode_wave_aux_mem hdr data (List.range hdr.subrecords.length) w hw
  obtain ⟨sub_data, wfh, hgd, hph, hsamp, hstat⟩ := decode_wave_sub_spec hdr data i w hi
  refine ⟨i, sub_data, wfh, hgd, hph, hsamp, hstat, ?_, ?_, ?_⟩
  · rw [hsamp]
    exact collect_samples_length_le sub_data wfh.act_len 6
  · rw [hsamp]
    exact collect_samples_lt_iff sub_data wfh.act_len 6
  · rw [hstat]
    rfl

theorem C3_waveform_lengths_witness :
    ∃ i sub_data wfh,
      get_subrecord_data hdrC3 dataC3w i = Except.ok sub_data ∧
      WaveformHeader.parse sub_data = some wfh ∧
      ({ timestamp := 0, waveform_type := WaveformType.Ecg1, samples := [5],
         sample_rate := 300,
         status := ⟨true, false, false⟩ } : WaveformData).samples =
        collect_samples sub_data 6 wfh.act_len ∧
      ({ timestamp := 0, waveform_type := WaveformType.Ecg1, samples := [5],
         sample_rate := 300,
         status := ⟨true, false, false⟩ } : WaveformData).status =
        WaveformStatus.from_u16 wfh.status ∧
      ({ timestamp := 0, waveform_type := WaveformType.Ecg1, samples := [5],
         sample_rate := 300,
         status := ⟨true, false, false⟩ } : WaveformData).samples.length ≤ wfh.act_len ∧
      (({ timestamp := 0, waveform_type := WaveformType.Ecg1, samples := [5],
          sample_rate := 300,
          status := ⟨true, false, false⟩ } : WaveformData).samples.length < wfh.act_len ↔
        (0 < wfh.act_len ∧ sub_data.length < 6 + 2 * wfh.act_len)) ∧
      ({ timestamp := 0, waveform_type := WaveformType.Ecg1, samples := [5],
         sample_rate := 300,
         status := ⟨true, false, false⟩ } : WaveformData).status.gap =
        ((wfh.status &&& 1) != 0) :=
  C3_waveform_lengths hdrC3 dataC3w
    { timestamp := 0, waveform_type := WaveformType.Ecg1, samples := [5],
      sample_rate := 300, status := ⟨true, false, false⟩ } (by decide)

/-! ## C1 witness -/

theorem C1_roundtrip_witness :
    ([126, 125, 65] : List Nat) ≠ [] ∧
    process_bytes FrameParser.new (create_frame [126, 125, 65]) =
      (⟨ParserState.WaitingForStart, [126, 125, 65]⟩,
        Except.ok [⟨[126, 125, 65], ([126, 125, 65] : List Nat).sum % 256⟩]) :=
  ⟨by decide, C1_roundtrip [126, 125, 65] (by decide)⟩

/-! ## C6: sentinel classification and scaling of i16 fields -/

/-- Claim C6: a raw i16 at or below -32001 decodes to none and is classified
by get_special_value as one of the five sentinel kinds (reserved values not
among the named constants, -32765 included, fall back to Invalid); a raw
value above -32001 decodes to some(raw * scale) and has no sentinel kind. -/
theorem C6_sentinels (raw : Int) (scale : ℚ) :
    (raw ≤ -32001 →
      scale_valid_i16 raw scale = none ∧ (get_special_value raw).isSome = true) ∧
    (-32001 < raw →
      scale_valid_i16 raw scale = some ((raw : ℚ) * scale) ∧
        get_special_value raw = none) := by
  constructor
  · intro h
    constructor
    · simp [scale_valid_i16, is_invalid, DATA_INVALID_LIMIT, h]
    · unfold get_special_value
      unfold DATA_INVALID DATA_NOT_UPDATED DATA_UNDER_RANGE DATA_OVER_RANGE
        DATA_NOT_CALIBRATED DATA_INVALID_LIMIT
      split_ifs <;> simp_all
      omega
  · intro h
    constructor
    · have hni : is_invalid raw = false := by
        simp [is_invalid, DATA_INVALID_LIMIT]
        omega
      simp [scale_valid_i16, hni]
    · unfold get_special_value
      unfold DATA_INVALID DATA_NOT_UPDATED DATA_UNDER_RANGE DATA_OVER_RANGE
        DATA_NOT_CALIBRATED DATA_INVALID_LIMIT
      split_ifs <;> first | rfl | omega

theorem C6_sentinels_witness :
    (scale_valid_i16 (-32765) (1 / 100) = none ∧
      (get_special_value (-32765)).isSome = true) ∧
    (scale_valid_i16 75 (1 / 100) = some ((75 : ℚ) * (1 / 100)) ∧
      get_special_value 75 = none) :=
  ⟨(C6_sentinels (-32765) (1 / 100)).1 (by decide),
   (C6_sentinels 75 (1 / 100)).2 (by decide)⟩

/-! ## C9: which records decode to Ok(None) -/

/-- Claim C9 counterexample: a waveform record holding only a command
subrecord decodes to Ok(None) although its main type is Wave, not one of
alarm, network or event. -/
theorem C9_counterexample :
    decode_frame hdrC9 [] = Except.ok none ∧
    hdrC9.r_maintype = DriMainType.Wave := by
  decide

/-- Claim C9 amended: decode_frame returns Ok(None) exactly when the main
type is alarm, network or event, or when the main type is waveform and the
waveform decoder emitted no waveforms; a physiological record never yields
Ok(None). -/
theorem C9_ok_none_iff (hdr : DriHeader) (data : List Nat) :
    decode_frame hdr data = Except.ok none ↔
      (hdr.r_maintype = DriMainType.Alarm ∨ hdr.r_maintype = DriMainType.Network ∨
        hdr.r_maintype = DriMainType.Fo ∨
        (hdr.r_maintype = DriMainType.Wave ∧ decode_waveforms hdr data = [])) := by
  obtain ⟨rl, rn, lvl, pid, rt, mt, subs⟩ := hdr
  cases mt with
  | Phdb =>
      simp only [decode_frame]
      constructor
      · intro h
        exfalso
        split at h
        · exact absurd h (by simp)
        · split at h
          · exact absurd h (by simp)
          · split at h
            · exact absurd h (by simp)
            · split at h
              · exact absurd h (by simp)
              · split at h
                · exact absurd h (by simp)
                · split at h
                  · exact absurd h (by simp)
                  · exact absurd h (by simp)
      · rintro (h | h | h | ⟨h, _⟩) <;> simp at h
  | Wave =>
      simp only [decode_frame]
      constructor
      · intro h
        split at h
        · right; right; right
          exact ⟨by simp, by assumption⟩
        · exact absurd h (by simp)
      · rintro (h | h | h | ⟨_, h⟩)
        · simp at h
        · simp at h
        · simp at h
        · rw [if_pos h]
  | Alarm => simp [decode_frame]
  | Network => simp [decode_frame]
  | Fo => simp [decode_frame]

/-! ## Slice arithmetic for the Basic-class layout -/

theorem length_drop_take {l : List Nat} {a n : Nat} (h : a + n ≤ l.length) :
    ((l.drop a).take n).length = n := by
  rw [List.length_take, List.length_drop, Nat.min_eq_left (by omega)]

theorem length_take_of_le {l : List Nat} {n : Nat} (h : n ≤ l.length) :
    (l.take n).length = n := by
  rw [List.length_take, Nat.min_eq_left h]

theorem slice_getD {l : List Nat} {a n k : Nat} (h : k < n) :
    ((l.drop a).take n).getD k 0 = l.getD (a + k) 0 := by
  simp [List.getD, List.getElem?_take_of_lt h, List.getElem?_drop]

theorem read_u16_slice {l : List Nat} {a n k : Nat} (h : k + 1 < n) :
    read_u16 ((l.drop a).take n) k = read_u16 l (a + k) := by
  unfold read_u16
  rw [slice_getD (by omega), slice_getD (show k + 1 < n by omega), Nat.add_assoc]

theorem read_i16_slice {l : List Nat} {a n k : Nat} (h : k + 1 < n) :
    read_i16 ((l.drop a).take n) k = read_i16 l (a + k) := by
  unfold read_i16
  rw [read_u16_slice h]

theorem read_u32_slice {l : List Nat} {a n k : Nat} (h : k + 3 < n) :
    read_u32 ((l.drop a).take n) k = read_u32 l (a + k) := by
  unfold read_u32
  rw [slice_getD (by omega), slice_getD (show k + 1 < n by omega),
    slice_getD (show k + 2 < n by omega), slice_getD (show k + 3 < n by omega)]
  simp [Nat.add_assoc]

theorem slice_take {l : List Nat} (a n m : Nat) (h : m ≤ n) :
    ((l.drop a).take n).take m = (l.drop a).take m := by
  rw [List.take_take, Nat.min_eq_left h]

/-- Characterization of decode_basic_class on a class-data slice that covers
the whole Basic layout: every group parses, and the group fields named here
come from the absolute offsets used by the code (NIBP at 76, SpO2 at 122,
CO2 at 136, O2 at 150, N2O at 160, AA at 170, flow at 182). -/
theorem decode_basic_class_long (data : List Nat) (phys0 : PhysiologicalData)
    (h : 204 ≤ data.length) :
    ∃ p, decode_basic_class data phys0 = some p ∧
      p.cls = phys0.cls ∧
      p.timestamp = phys0.timestamp ∧
      p.subtype = phys0.subtype ∧
      p.nibp_status = NibpStatus.from_label (read_u16 data 80) ∧
      p.nibp_sys = scale_valid_i16 (read_i16 data 82) SCALE_PRESSURE_100 ∧
      p.nibp_mean = scale_valid_i16 (read_i16 data 86) SCALE_PRESSURE_100 ∧
      p.spo2 = scale_valid_i16 (read_i16 data 128) SCALE_PERCENT_100 ∧
      p.co2_et = scale_valid_i16 (read_i16 data 142) SCALE_PERCENT_100 ∧
      p.o2_et = scale_valid_i16 (read_i16 data 156) SCALE_PERCENT_100 ∧
      p.n2o_et = scale_valid_i16 (read_i16 data 166) SCALE_PERCENT_100 ∧
      p.aa_et = scale_valid_i16 (read_i16 data 176) SCALE_PERCENT_100 ∧
      p.flow_rr = (if is_invalid (read_i16 data 188) then none
        else some ((read_i16 data 188 : Int) : ℚ)) := by
  obtain ⟨⟨stE, hrE, s1E, s2E, s3E, rrE, srE, l1E, l2E, l3E⟩, hE⟩ :
      ∃ t, parse_ecg_group (data.take 16) = some t := by
    have c1 : ¬((data.take 16).length < 16) := by
      rw [length_take_of_le (show 16 ≤ data.length by omega)]
      omega
    have ht : (data.take 16).take 6 = data.take 6 := by
      rw [List.take_take]
      norm_num
    have c2 : 6 ≤ ((data.take 16).take 6).length := by
      rw [ht, length_take_of_le (show 6 ≤ data.length by omega)]
    unfold parse_ecg_group parse_group_header
    rw [if_neg c1, if_pos c2]
    exact ⟨_, rfl⟩
  obtain ⟨⟨stI, sysI, diaI, meanI, hrI, labI⟩, hI⟩ :
      ∃ t, parse_invp_group ((data.drop 16).take 14) = some t := by
    have c1 : ¬(((data.drop 16).take 14).length < 14) := by
      rw [length_drop_take (show 16 + 14 ≤ data.length by omega)]
      omega
    have c2 : 6 ≤ (((data.drop 16).take 14).take 6).length := by
      rw [slice_take 16 14 6 (by omega),
        length_drop_take (show 16 + 6 ≤ data.length by omega)]
    unfold parse_invp_group parse_group_header
    rw [if_neg c1, if_pos c2]
    exact ⟨_, rfl⟩
  obtain ⟨⟨stT1, tmpT1, labT1⟩, hT1⟩ :
      ∃ t, parse_temp_group ((data.drop 90).take 8) = some t := by
    have c1 : ¬(((data.drop 90).take 8).length < 8) := by
      rw [length_drop_take (show 90 + 8 ≤ data.length by omega)]
      omega
    have c2 : 6 ≤ (((data.drop 90).take 8).take 6).length := by
      rw [slice_take 90 8 6 (by omega),
        length_drop_take (show 90 + 6 ≤ data.length by omega)]
    unfold parse_temp_group parse_group_header
    rw [if_neg c1, if_pos c2]
    exact ⟨_, rfl⟩
  obtain ⟨⟨stT2, tmpT2, labT2⟩, hT2⟩ :
      ∃ t, parse_temp_group ((data.drop 98).take 8) = some t := by
    have c1 : ¬(((data.drop 98).take 8).length < 8) := by
      rw [length_drop_take (show 98 + 8 ≤ data.length by omega)]
      omega
    have c2 : 6 ≤ (((data.drop 98).take 8).take 6).length := by
      rw [slice_take 98 8 6 (by omega),
        length_drop_take (show 98 + 6 ≤ data.length by omega)]
    unfold parse_temp_group parse_group_header
    rw [if_neg c1, if_pos c2]
    exact ⟨_, rfl⟩
  have hN : parse_nibp_group ((data.drop 76).take 14) = some
      (NibpStatus.from_label (read_u16 data 80),
       scale_valid_i16 (read_i16 data 82) SCALE_PRESSURE_100,
       scale_valid_i16 (read_i16 data 84) SCALE_PRESSURE_100,
       scale_valid_i16 (read_i16 data 86) SCALE_PRESSURE_100,
       if is_invalid (read_i16 data 88) then none
       else some ((read_i16 data 88 : Int) : ℚ)) := by
    have c1 : ¬(((data.drop 76).take 14).length < 14) := by
      rw [length_drop_take (show 76 + 14 ≤ data.length by omega)]
      omega
    have c2 : 6 ≤ (((data.drop 76).take 14).take 6).length := by
      rw [slice_take 76 14 6 (by omega),
        length_drop_take (show 76 + 6 ≤ data.length by omega)]
    unfold parse_nibp_group parse_group_header
    rw [if_neg c1, if_pos c2, slice_take 76 14 6 (by omega),
      read_u16_slice (show 4 + 1 < 6 by omega),
      read_i16_slice (show 6 + 1 < 14 by omega),
      read_i16_slice (show 8 + 1 < 14 by omega),
      read_i16_slice (show 10 + 1 < 14 by omega),
      read_i16_slice (show 12 + 1 < 14 by omega)]
  have hS : parse_spo2_group ((data.drop 122).take 14) = some
      (Spo2Status.from_status (read_u32 data 122),
       scale_valid_i16 (read_i16 data 128) SCALE_PERCENT_100,
       if is_invalid (read_i16 data 130) then none
       else some ((read_i16 data 130 : Int) : ℚ),
       scale_valid_i16 (read_i16 data 132) SCALE_IR_AMP_10) := by
    have c1 : ¬(((data.drop 122).take 14).length < 14) := by
      rw [length_drop_take (show 122 + 14 ≤ data.length by omega)]
      omega
    have c2 : 6 ≤ (((data.drop 122).take 14).take 6).length := by
      rw [slice_take 122 14 6 (by omega),
        length_drop_take (show 122 + 6 ≤ data.length by omega)]
    unfold parse_spo2_group parse_group_header
    rw [if_neg c1, if_pos c2, slice_take 122 14 6 (by omega),
      read_u32_slice (show 0 + 3 < 6 by omega),
      read_i16_slice (show 6 + 1 < 14 by omega),
      read_i16_slice (show 8 + 1 < 14 by omega),
      read_i16_slice (show 10 + 1 < 14 by omega)]
  have hC : parse_co2_group ((data.drop 136).take 14) = some
      (Co2Status.from_status (read_u32 data 136),
       scale_valid_i16 (read_i16 data 142) SCALE_PERCENT_100,
       scale_valid_i16 (read_i16 data 144) SCALE_PERCENT_100,
       if is_invalid (read_i16 data 146) then none
       else some ((read_i16 data 146 : Int) : ℚ)) := by
    have c1 : ¬(((data.drop 136).take 14).length < 14) := by
      rw [length_drop_take (show 136 + 14 ≤ data.length by omega)]
      omega
    have c2 : 6 ≤ (((data.drop 136).take 14).take 6).length := by
      rw [slice_take 136 14 6 (by omega),
        length_drop_take (show 136 + 6 ≤ data.length by omega)]
    unfold parse_co2_group parse_group_header
    rw [if_neg c1, if_pos c2, slice_take 136 14 6 (by omega),
      read_u32_slice (show 0 + 3 < 6 by omega),
      read_i16_slice (show 6 + 1 < 14 by omega),
      read_i16_slice (show 8 + 1 < 14 by omega),
      read_i16_slice (show 10 + 1 < 14 by omega)]
  have hO : parse_o2_group ((data.drop 150).take 10) = some
      (GasStatus.from_status (read_u32 data 150),
       scale_valid_i16 (read_i16 data 156) SCALE_PERCENT_100,
       scale_valid_i16 (read_i16 data 158) SCALE_PERCENT_100) := by
    have c1 : ¬(((data.drop 150).take 10).length < 10) := by
      rw [length_drop_take (show 150 + 10 ≤ data.length by omega)]
      omega
    have c2 : 6 ≤ (((data.drop 150).take 10).take 6).length := by
      rw [slice_take 150 10 6 (by omega),
        length_drop_take (show 150 + 6 ≤ data.length by omega)]
    unfold parse_o2_group parse_group_header
    rw [if_neg c1, if_pos c2, slice_take 150 10 6 (by omega),
      read_u32_slice (show 0 + 3 < 6 by omega),
      read_i16_slice (show 6 + 1 < 10 by omega),
      read_i16_slice (show 8 + 1 < 10 by omega)]
  have hN2 : parse_n2o_group ((data.drop 160).take 10) = some
      (GasStatus.from_status (read_u32 data 160),
       scale_valid_i16 (read_i16 data 166) SCALE_PERCENT_100,
       scale_valid_i16 (read_i16 data 168) SCALE_PERCENT_100) := by
    have c1 : ¬(((data.drop 160).take 10).length < 10) := by
      rw [length_drop_take (show 160 + 10 ≤ data.length by omega)]
      omega
    have c2 : 6 ≤ (((data.drop 160).take 10).take 6).length := by
      rw [slice_take 160 10 6 (by omega),
        length_drop_take (show 160 + 6 ≤ data.length by omega)]
    unfold parse_n2o_group parse_group_header
    rw [if_neg c1, if_pos c2, slice_take 160 10 6 (by omega),
      read_u32_slice (show 0 + 3 < 6 by omega),
      read_i16_slice (show 6 + 1 < 10 by omega),
      read_i16_slice (show 8 + 1 < 10 by omega)]
  have hA : parse_aa_group ((data.drop 170).take 12) = some
      (GasStatus.from_status (read_u32 data 170),
       scale_valid_i16 (read_i16 data 176) SCALE_PERCENT_100,
       scale_valid_i16 (read_i16 data 178) SCALE_PERCENT_100,
       scale_valid_i16 (read_i16 data 180) SCALE_MAC_100,
       AnesthesiaAgent.from_u16 (read_u16 data 174)) := by
    have c1 : ¬(((data.drop 170).take 12).length < 12) := by
      rw [length_drop_take (show 170 + 12 ≤ data.length by omega)]
      omega
    have c2 : 6 ≤ (((data.drop 170).take 12).take 6).length := by
      rw [slice_take 170 12 6 (by omega),
        length_drop_take (show 170 + 6 ≤ data.length by omega)]
    unfold parse_aa_group parse_group_header
    rw [if_neg c1, if_pos c2, slice_take 170 12 6 (by omega),
      read_u32_slice (show 0 + 3 < 6 by omega),
      read_u16_slice (show 4 + 1 < 6 by omega),
      read_i16_slice (show 6 + 1 < 12 by omega),
      read_i16_slice (show 8 + 1 < 12 by omega),
      read_i16_slice (show 10 + 1 < 12 by omega)]
  have hF : parse_flow_vol_group ((data.drop 182).take 22) = some
      (FlowVolStatus.from_status (read_u32 data 182),
       (if is_invalid (read_i16 data 188) then none
        else some ((read_i16 data 188 : Int) : ℚ)),
       scale_valid_i16 (read_i16 data 190) SCALE_AWP_100,
       scale_valid_i16 (read_i16 data 192) SCALE_AWP_100,
       scale_valid_i16 (read_i16 data 194) SCALE_AWP_100,
       scale_valid_i16 (read_i16 data 196) SCALE_VOLUME_10,
       scale_valid_i16 (read_i16 data 198) SCALE_VOLUME_10,
       scale_valid_i16 (read_i16 data 200) SCALE_COMPLIANCE_100,
       scale_valid_i16 (read_i16 data 202) SCALE_PERCENT_100) := by
    have c1 : ¬(((data.drop 182).take 22).length < 22) := by
      rw [length_drop_take (show 182 + 22 ≤ data.length by omega)]
      omega
    have c2 : 6 ≤ (((data.drop 182).take 22).take 6).length := by
      rw [slice_take 182 22 6 (by omega),
        length_drop_take (show 182 + 6 ≤ data.length by omega)]
    unfold parse_flow_vol_group parse_group_header
    rw [if_neg c1, if_pos c2, slice_take 182 22 6 (by omega),
      read_u32_slice (show 0 + 3 < 6 by omega),
      read_i16_slice (show 6 + 1 < 22 by omega),
      read_i16_slice (show 8 + 1 < 22 by omega),
      read_i16_slice (show 10 + 1 < 22 by omega),
      read_i16_slice (show 12 + 1 < 22 by omega),
      read_i16_slice (show 14 + 1 < 22 by omega),
      read_i16_slice (show 16 + 1 < 22 by omega),
      read_i16_slice (show 18 + 1 < 22 by omega),
      read_i16_slice (show 20 + 1 < 22 by omega)]
  unfold decode_basic_class
  simp only [if_pos (show 16 ≤ data.length by omega), hE,
    if_pos (show 30 ≤ data.length by omega), hI,
    if_pos (show 90 ≤ data.length by omega), hN,
    if_pos (show 98 ≤ data.length by omega), hT1,
    if_pos (show 106 ≤ data.length by omega), hT2,
    if_pos (show 136 ≤ data.length by omega), hS,
    if_pos (show 150 ≤ data.length by omega), hC,
    if_pos (show 160 ≤ data.length by omega), hO,
    if_pos (show 170 ≤ data.length by omega), hN2,
    if_pos (show 182 ≤ data.length by omega), hA,
    if_pos (show 204 ≤ data.length by omega), hF, Option.some_bind]
  exact ⟨_, rfl, rfl, rfl, rfl, rfl, rfl, rfl, rfl, rfl, rfl, rfl, rfl, rfl⟩

/-- Claim C4 counterexample: two Basic-class data slices that agree on bytes
72..86 (the claimed NIBP window) decode to different NIBP values, because the
code reads the NIBP group from bytes 76..90; byte 86 carries the NIBP mean. -/
theorem C4_counterexample :
    (dataC4a.drop 72).take 14 = (dataC4b.drop 72).take 14 ∧
    (decode_basic_class dataC4a
        (PhysiologicalData.empty 0 PhdbClass.Basic PhdbSubrecordType.Displ)).map
      (fun r => r.nibp_mean) = some (some 0) ∧
    (decode_basic_class dataC4b
        (PhysiologicalData.empty 0 PhdbClass.Basic PhdbSubrecordType.Displ)).map
      (fun r => r.nibp_mean) = some (some 2) := by
  refine ⟨by decide, ?_, ?_⟩
  · have h : (decode_basic_class dataC4a
        (PhysiologicalData.empty 0 PhdbClass.Basic PhdbSubrecordType.Displ)).map
          (fun r => r.nibp_mean) =
        some (scale_valid_i16 (read_i16 dataC4a 86) SCALE_PRESSURE_100) := by rfl
    rw [h, show read_i16 dataC4a 86 = 0 by decide]
    norm_num [scale_valid_i16, is_invalid, DATA_INVALID_LIMIT, SCALE_PRESSURE_100]
  · have h : (decode_basic_class dataC4b
        (PhysiologicalData.empty 0 PhdbClass.Basic PhdbSubrecordType.Displ)).map
          (fun r => r.nibp_mean) =
        some (scale_valid_i16 (read_i16 dataC4b 86) SCALE_PRESSURE_100) := by rfl
    rw [h, show read_i16 dataC4b 86 = 200 by decide]
    norm_num [scale_valid_i16, is_invalid, DATA_INVALID_LIMIT, SCALE_PRESSURE_100]

/-- Claim C4 amended: in decode_basic_class the NIBP group is read from bytes
76..90 (label word at 80, sys at 82, mean at 86), SpO2 from 122..136 (value
at 128), CO2 at 136 (EtCO2 at 142), O2 at 150 (EtO2 at 156), N2O at 160
(EtN2O at 166), the anesthesia agent at 170 (Et at 176) and flow/volume at
182 (RR at 188), offsets counted from byte 4 of the subrecord. -/
theorem C4_offsets (data : List Nat) (phys0 : PhysiologicalData)
    (h : 204 ≤ data.length) :
    ∃ p, decode_basic_class data phys0 = some p ∧
      p.nibp_status = NibpStatus.from_label (read_u16 data 80) ∧
      p.nibp_sys = scale_valid_i16 (read_i16 data 82) SCALE_PRESSURE_100 ∧
      p.nibp_mean = scale_valid_i16 (read_i16 data 86) SCALE_PRESSURE_100 ∧
      p.spo2 = scale_valid_i16 (read_i16 data 128) SCALE_PERCENT_100 ∧
      p.co2_et = scale_valid_i16 (read_i16 data 142) SCALE_PERCENT_100 ∧
      p.o2_et = scale_valid_i16 (read_i16 data 156) SCALE_PERCENT_100 ∧
      p.n2o_et = scale_valid_i16 (read_i16 data 166) SCALE_PERCENT_100 ∧
      p.aa_et = scale_valid_i16 (read_i16 data 176) SCALE_PERCENT_100 ∧
      p.flow_rr = (if is_invalid (read_i16 data 188) then none
        else some ((read_i16 data 188 : Int) : ℚ)) := by
  obtain ⟨p, hp, _, _, _, h1, h2, h3, h4, h5, h6, h7, h8, h9⟩ :=
    decode_basic_class_long data phys0 h
  exact ⟨p, hp, h1, h2, h3, h4, h5, h6, h7, h8, h9⟩

theorem C4_offsets_witness :
    ∃ p, decode_basic_class (List.replicate 204 0)
        (PhysiologicalData.empty 0 PhdbClass.Basic PhdbSubrecordType.Displ) = some p ∧
      p.nibp_status = NibpStatus.from_label (read_u16 (List.replicate 204 0) 80) ∧
      p.nibp_sys = scale_valid_i16 (read_i16 (List.replicate 204 0) 82) SCALE_PRESSURE_100 ∧
      p.nibp_mean = scale_valid_i16 (read_i16 (List.replicate 204 0) 86) SCALE_PRESSURE_100 ∧
      p.spo2 = scale_valid_i16 (read_i16 (List.replicate 204 0) 128) SCALE_PERCENT_100 ∧
      p.co2_et = scale_valid_i16 (read_i16 (List.replicate 204 0) 142) SCALE_PERCENT_100 ∧
      p.o2_et = scale_valid_i16 (read_i16 (List.replicate 204 0) 156) SCALE_PERCENT_100 ∧
      p.n2o_et = scale_valid_i16 (read_i16 (List.replicate 204 0) 166) SCALE_PERCENT_100 ∧
      p.aa_et = scale_valid_i16 (read_i16 (List.replicate 204 0) 176) SCALE_PERCENT_100 ∧
      p.flow_rr = (if is_invalid (read_i16 (List.replicate 204 0) 188) then none
        else some ((read_i16 (List.replicate 204 0) 188 : Int) : ℚ)) :=
  C4_offsets (List.replicate 204 0)
    (PhysiologicalData.empty 0 PhdbClass.Basic PhdbSubrecordType.Displ) (by decide)

/-! ## C5: the classifier word and the decoded class -/

theorem decode_physiological_class (sub : List Nat) (st : PhdbSubrecordType)
    (cls : PhdbClass) (r : PhysiologicalData)
    (h : decode_physiological sub st cls = Except.ok r) : r.cls = cls := by
  unfold decode_physiological at h
  split at h
  · exact absurd h (by simp)
  · cases cls with
    | Basic =>
        have hd : 204 ≤ (sub.drop 4).length := by
          rw [List.length_drop]
          omega
        obtain ⟨p, hp, hcls, _⟩ := decode_basic_class_long (sub.drop 4)
          (PhysiologicalData.empty (read_u32 sub 0) PhdbClass.Basic st) hd
        dsimp only at h
        rw [hp] at h
        simp only [Except.ok.injEq] at h
        rw [← h, hcls]
        rfl
    | Ext1 =>
        simp only [Except.ok.injEq] at h
        rw [← h]
        rfl
    | Ext2 =>
        simp only [Except.ok.injEq] at h
        rw [← h]
        rfl
    | Ext3 =>
        simp only [Except.ok.injEq] at h
        rw [← h]
        rfl

/-- Claim C5 amended: for a physiological frame the decoder takes the class
from bits 8..11 of the little-endian classifier word at offset 1086, i.e.
the LOW nibble of the high byte (not the high nibble), and it never examines
the low byte of that word (the subrecord type comes from the descriptor
table instead). -/
theorem C5_class_bits (hdr : DriHeader) (data sub_data : List Nat)
    (d0 : SubrecordDescriptor) (rest : List SubrecordDescriptor)
    (subtype : PhdbSubrecordType) (cls : PhdbClass) (r : PhysiologicalData)
    (hm : hdr.r_maintype = DriMainType.Phdb)
    (hs : hdr.subrecords = d0 :: rest)
    (hst : PhdbSubrecordType.from_u8 d0.sr_type = some subtype)
    (hgd : get_subrecord_data hdr data 0 = Except.ok sub_data)
    (hlen : ¬(sub_data.length < 1088))
    (hcls : PhdbClass.from_u8 ((read_u16 sub_data 1086 >>> 8) &&& 15) = some cls)
    (hph : decode_physiological sub_data subtype cls = Except.ok r) :
    decode_frame hdr data = Except.ok (some (DriRecord.Physiological r)) ∧
    r.cls = cls ∧
    (sub_data.getD 1086 0 < 256 →
      (read_u16 sub_data 1086 >>> 8) &&& 15 = (sub_data.getD 1087 0) &&& 15) := by
  refine ⟨?_, decode_physiological_class sub_data subtype cls r hph, ?_⟩
  · obtain ⟨rl, rn, lvl, pid, rt, mt, subs⟩ := hdr
    dsimp only at hm hs hgd
    subst hm
    subst hs
    unfold decode_frame
    simp only [hst, hgd, if_neg hlen, hcls, hph]
  · intro hb
    unfold read_u16
    rw [Nat.shiftRight_eq_div_pow]
    have hdiv : (sub_data.getD 1086 0 + 256 * sub_data.getD 1087 0) / 2 ^ 8 =
        sub_data.getD 1087 0 := by
      omega
    rw [hdiv]

theorem C5_class_bits_witness :
    decode_frame hdrC5 dataC5 =
      Except.ok (some (DriRecord.Physiological
        (PhysiologicalData.empty 0 PhdbClass.Ext1 PhdbSubrecordType.Displ))) ∧
    (PhysiologicalData.empty 0 PhdbClass.Ext1 PhdbSubrecordType.Displ).cls = PhdbClass.Ext1 ∧
    (dataC5.getD 1086 0 < 256 →
      (read_u16 dataC5 1086 >>> 8) &&& 15 = (dataC5.getD 1087 0) &&& 15) :=
  C5_class_bits hdrC5 dataC5 dataC5 ⟨0, 1⟩ [] PhdbSubrecordType.Displ PhdbClass.Ext1
    (PhysiologicalData.empty 0 PhdbClass.Ext1 PhdbSubrecordType.Displ)
    (by decide) (by decide) (by decide) (by decide) (by decide) (by decide) (by decide)

/-- Claim C5 counterexample: a subrecord whose classifier word is 0x0100.
The high nibble of its high byte is 0 (class Basic under the claimed rule),
yet the decoder returns class Ext1, because it uses bits 8..11. -/
theorem C5_counterexample :
    decoded_class (decode_frame hdrC5 dataC5) = some PhdbClass.Ext1 ∧
    read_u16 dataC5 1086 = 256 ∧
    (read_u16 dataC5 1086 >>> 12) &&& 15 = 0 := by
  decide

end DRI
